import Mathlib

/-!
Verification of the Go FIDO U2F server library (package u2f) against its
natural-language specification.

The development shallowly embeds the Go sources: byte strings become
`List Nat` (each element a byte value < 256), Go `string` values are byte
lists as well, machine integers are `Nat`/`Int` with explicit reduction
modulo 2^32 where Go truncates, and fallible Go functions return
`Except`/`Option`.  Calls into the Go standard library that this library
makes (`encoding/base64`, `encoding/asn1`, `crypto/elliptic`,
`crypto/sha256`, `crypto/ecdsa`, parts of `crypto/x509`) are embedded as
executable Lean functions following the standard library's sources;
`encoding/json` un/marshalling and certificate-chain verification are kept
abstract as explicit function parameters, since the library only threads
their results through.
-/

deriving instance DecidableEq for Except

namespace U2F

/-- Error values produced by the library (each constructor corresponds to a
distinct Go `error` value created with `errors.New` or returned by a
standard-library call). -/
inductive GoErr where
  /-- u2f: challenge has expired -/
  | challengeExpired
  /-- u2f: wrong key handle -/
  | wrongKeyHandle
  /-- u2f: data is too short -/
  | tooShort
  /-- u2f: invalid user presence byte -/
  | invalidPresenceByte
  /-- u2f: trailing data -/
  | trailingData
  /-- u2f: counter not increasing -/
  | counterNotIncreasing
  /-- u2f: untrusted facet id -/
  | untrustedFacet
  /-- u2f: challenge does not match -/
  | challengeMismatch
  /-- u2f: invalid signature -/
  | invalidSignature
  /-- u2f: user was not present -/
  | userNotPresent
  /-- u2f: invalid reserved byte -/
  | invalidReservedByte
  /-- u2f: invalid public key -/
  | invalidPublicKey
  /-- u2f: invalid key handle -/
  | invalidKeyHandle
  /-- base64.CorruptInputError from encoding/base64 -/
  | base64Corrupt
  /-- a structural or syntax error from encoding/asn1; the code selects
  which Go message it models -/
  | asn1Error (code : Nat)
  /-- an error returned by encoding/json Unmarshal (kept abstract) -/
  | jsonError (code : Nat)
  /-- an error returned by crypto/x509 ParseCertificate (kept abstract) -/
  | x509Error (code : Nat)
  /-- an error returned by x509 certificate chain verification -/
  | certVerifyError (code : Nat)
  /-- x509: trailing data after ECDSA signature -/
  | x509TrailingSig
  /-- x509: ECDSA signature contained zero or negative values -/
  | x509NonPositiveSig
deriving DecidableEq, Repr

/-! ## Base64url codec (encoding/base64 URLEncoding plus the u2f wrappers)

Go's `base64.URLEncoding` uses the alphabet below with `=` padding.  The
u2f library wraps it: `encodeBase64` strips the padding, `decodeBase64`
re-pads before decoding (src/util.go lines 102-112). -/

/-- Byte values of the base64url alphabet
`ABCDEFGHIJKLMNOPQRSTUVWXYZabcdefghijklmnopqrstuvwxyz0123456789-_`. -/
def b64Alphabet : List Nat :=
  [65, 66, 67, 68, 69, 70, 71, 72, 73, 74, 75, 76, 77, 78, 79, 80,
   81, 82, 83, 84, 85, 86, 87, 88, 89, 90,
   97, 98, 99, 100, 101, 102, 103, 104, 105, 106, 107, 108, 109, 110,
   111, 112, 113, 114, 115, 116, 117, 118, 119, 120, 121, 122,
   48, 49, 50, 51, 52, 53, 54, 55, 56, 57, 45, 95]

/-- Byte value of the padding character. -/
def b64Pad : Nat := 61

/-- Character for a 6-bit group index (Go: `enc.encode[v]`). -/
def encChar (v : Nat) : Nat := b64Alphabet.getD v 0

/-- Inverse character lookup (Go: `enc.decodeMap[c]`, `none` for `0xFF`). -/
def decChar (c : Nat) : Option Nat := b64Alphabet.indexOf? c

/-- Core of Go `base64.URLEncoding.EncodeToString`: each 3-byte group
yields 4 alphabet characters; a trailing group of 1 or 2 bytes yields 2 or
3 characters followed by padding. -/
def b64Encode : List Nat → List Nat
  | [] => []
  | [b0] =>
    let val := b0 * 65536
    [encChar (val / 262144 % 64), encChar (val / 4096 % 64), b64Pad, b64Pad]
  | [b0, b1] =>
    let val := b0 * 65536 + b1 * 256
    [encChar (val / 262144 % 64), encChar (val / 4096 % 64),
     encChar (val / 64 % 64), b64Pad]
  | b0 :: b1 :: b2 :: rest =>
    let val := b0 * 65536 + b1 * 256 + b2
    encChar (val / 262144 % 64) :: encChar (val / 4096 % 64) ::
    encChar (val / 64 % 64) :: encChar (val % 64) :: b64Encode rest

/-- Core of Go `base64.URLEncoding.DecodeString`: the input is consumed in
quanta of four characters; `=` may close the final quantum (`xx==` yields
one byte, `xxx=` two); anything else that is not four alphabet characters
is a `CorruptInputError`.  In Go the decoder reassembles
`val = d0<<18 | d1<<12 | d2<<6 | d3` and emits `byte(val>>16)`,
`byte(val>>8)`, `byte(val)`. -/
def b64DecodeQuanta : List Nat → Except GoErr (List Nat)
  | [] => .ok []
  | c0 :: c1 :: c2 :: c3 :: rest =>
    match decChar c0, decChar c1 with
    | some d0, some d1 =>
      if c2 = b64Pad then
        if c3 = b64Pad ∧ rest = [] then
          .ok [(d0 * 262144 + d1 * 4096) / 65536 % 256]
        else .error .base64Corrupt
      else
        match decChar c2 with
        | some d2 =>
          if c3 = b64Pad then
            if rest = [] then
              let val := d0 * 262144 + d1 * 4096 + d2 * 64
              .ok [val / 65536 % 256, val / 256 % 256]
            else .error .base64Corrupt
          else
            match decChar c3 with
            | some d3 =>
              match b64DecodeQuanta rest with
              | .error e => .error e
              | .ok tail =>
                let val := d0 * 262144 + d1 * 4096 + d2 * 64 + d3
                .ok (val / 65536 % 256 :: val / 256 % 256 :: val % 256 :: tail)
            | none => .error .base64Corrupt
        | none => .error .base64Corrupt
    | _, _ => .error .base64Corrupt
  | _ => .error .base64Corrupt

/-- Newline bytes are skipped by Go's base64 decoder. -/
def stripNewlines (s : List Nat) : List Nat :=
  s.filter (fun c => ¬ (c = 10 ∨ c = 13))

/-- Embedding of the u2f padding loop
`for i := 0; i < len(s)%4; i++ { s += "=" }` (src/util.go line 103).  The
bound `len(s) % 4` is re-evaluated as `s` grows, so the loop runs at most
three times (once `len(s) % 4 = 0` is reached the condition fails, and
`i` reaches at most 3 while the bound stays below 4); fuel 4 therefore
never runs out. -/
def padLoop : Nat → List Nat → Nat → List Nat
  | 0, s, _ => s
  | fuel + 1, s, i => if i < s.length % 4 then padLoop fuel (s ++ [b64Pad]) (i + 1) else s

/-- u2f `decodeBase64` (src/util.go lines 102-107): re-pad to a multiple of
four characters, then standard base64url decode. -/
def decodeBase64 (s : List Nat) : Except GoErr (List Nat) :=
  b64DecodeQuanta (stripNewlines (padLoop 4 s 0))

/-- Go `strings.TrimRight(s, "=")`. -/
def trimRightPad (s : List Nat) : List Nat :=
  ((s.reverse).dropWhile (fun c => c = b64Pad)).reverse

/-- u2f `encodeBase64` (src/util.go lines 109-112): standard base64url with
the padding stripped. -/
def encodeBase64 (buf : List Nat) : List Nat :=
  trimRightPad (b64Encode buf)

example : encodeBase64 [104, 105] = [97, 71, 107] := by decide

example : decodeBase64 (encodeBase64 [104, 105]) = .ok [104, 105] := by decide

example : decodeBase64 (encodeBase64 []) = .ok [] := by decide

example : decodeBase64 (encodeBase64 [0, 255, 7]) = .ok [0, 255, 7] := by decide

/-! ## ASN.1 DER (encoding/asn1, the parts this library calls)

The library calls `asn1.Unmarshal` twice: on an `ecdsaSig{R, S *big.Int}`
struct (a DER SEQUENCE of two INTEGERs) and on an `asn1.RawValue` (any
single TLV, used to measure the attestation certificate's length).  The
functions below follow Go's `parseTagAndLength`, `parseBase128Int`,
`checkInteger`/`parseBigInt` and the corresponding `parseField` cases.
The `GoErr.asn1Error` codes stand for Go's distinct error messages:
1 truncated tag or length, 2 indefinite length, 3 length too large,
4 superfluous leading zeros in length, 5 non-minimal length,
6 base 128 integer too large, 7 base 128 integer not minimally encoded,
8 truncated base 128 integer, 9 non-minimal tag,
10 tags don't match, 11 data truncated, 12 sequence truncated,
13 empty integer, 14 integer not minimally-encoded. -/

/-- Parsed identifier octets and length (Go `tagAndLength`). -/
structure TagLen where
  cls : Nat
  tag : Nat
  isCompound : Bool
  len : Nat
deriving DecidableEq, Repr

/-- Go `parseBase128Int` for high tag numbers.  The loop body runs at most
five times (`shifted == 5` aborts), so fuel 6 never runs out; the fuel-0
branch repeats the too-large error it can never reach. -/
def parseBase128Aux (bytes : List Nat) : Nat → Nat → Nat → Nat → Except GoErr (Nat × Nat)
  | 0, _shifted, _off, _acc => .error (.asn1Error 6)
  | fuel + 1, shifted, off, acc =>
    if off < bytes.length then
      if shifted = 5 then .error (.asn1Error 6)
      else
        let b := bytes.getD off 0
        if shifted = 0 ∧ b = 128 then .error (.asn1Error 7)
        else
          let acc2 := acc * 128 + b % 128
          if b < 128 then
            if 2147483647 < acc2 then .error (.asn1Error 6) else .ok (acc2, off + 1)
          else parseBase128Aux bytes fuel (shifted + 1) (off + 1) acc2
    else .error (.asn1Error 8)

/-- Long-form length octets: consume `nb` bytes into an accumulator,
mirroring Go's checks for oversized and non-minimally-encoded lengths. -/
def parseLengthBytes (bytes : List Nat) : Nat → Nat → Nat → Except GoErr (Nat × Nat)
  | 0, off, acc => .ok (acc, off)
  | nb + 1, off, acc =>
    if off < bytes.length then
      let b := bytes.getD off 0
      if 8388608 ≤ acc then .error (.asn1Error 3)
      else
        let acc2 := acc * 256 + b
        if acc2 = 0 then .error (.asn1Error 4)
        else parseLengthBytes bytes nb (off + 1) acc2
    else .error (.asn1Error 1)

/-- Go `parseTagAndLength bytes offset`.  Returns the decoded tag data and
the offset just past the identifier and length octets.  Bit tests on a
byte `b` are written arithmetically (`b / 64`, `b % 32`, `b < 128`), which
agrees with Go for byte values below 256. -/
def parseTagAndLength (bytes : List Nat) (initOffset : Nat) : Except GoErr (TagLen × Nat) :=
  if initOffset < bytes.length then
    let b := bytes.getD initOffset 0
    let cls := b / 64
    let isCompound := b / 32 % 2 = 1
    let tag0 := b % 32
    let afterTag : Except GoErr (Nat × Nat) :=
      if tag0 = 31 then
        match parseBase128Aux bytes 6 0 (initOffset + 1) 0 with
        | .error e => .error e
        | .ok (t, off) => if t < 31 then .error (.asn1Error 9) else .ok (t, off)
      else .ok (tag0, initOffset + 1)
    match afterTag with
    | .error e => .error e
    | .ok (tag, off) =>
      if off < bytes.length then
        let lb := bytes.getD off 0
        if lb < 128 then .ok (⟨cls, tag, decide isCompound, lb⟩, off + 1)
        else
          let numBytes := lb % 128
          if numBytes = 0 then .error (.asn1Error 2)
          else
            match parseLengthBytes bytes numBytes (off + 1) 0 with
            | .error e => .error e
            | .ok (len, off2) =>
              if len < 128 then .error (.asn1Error 5)
              else .ok (⟨cls, tag, decide isCompound, len⟩, off2)
      else .error (.asn1Error 1)
  else .error (.asn1Error 1)

/-- Go `asn1.Unmarshal(bytes, &asn1.RawValue{})`: parse one TLV of any
class and tag, check that its contents fit, and return the number of bytes
it occupies together with the remaining bytes (Go's `rest`). -/
def asn1UnmarshalRaw (bytes : List Nat) : Except GoErr (Nat × List Nat) :=
  if bytes.length = 0 then .error (.asn1Error 12)
  else
    match parseTagAndLength bytes 0 with
    | .error e => .error e
    | .ok (t, off) =>
      if bytes.length < off + t.len then .error (.asn1Error 11)
      else .ok (off + t.len, bytes.drop (off + t.len))

/-- Go `checkInteger` followed by `parseBigInt`: content octets of a DER
INTEGER to its (possibly negative, two's-complement) value. -/
def asn1IntValue (content : List Nat) : Except GoErr Int :=
  if content.length = 0 then .error (.asn1Error 13)
  else if 2 ≤ content.length ∧
      ((content.getD 0 0 = 0 ∧ content.getD 1 0 < 128) ∨
       (content.getD 0 0 = 255 ∧ 128 ≤ content.getD 1 0)) then
    .error (.asn1Error 14)
  else
    let v : Nat := content.foldl (fun acc b => acc * 256 + b) 0
    if 128 ≤ content.getD 0 0 then .ok ((v : Int) - (256 : Int) ^ content.length)
    else .ok (v : Int)

/-- Parse one `*big.Int` struct field inside a SEQUENCE (Go `parseField`
for a big.Int: expects a universal primitive INTEGER tag). -/
def parseIntField (inner : List Nat) (off : Nat) : Except GoErr (Int × Nat) :=
  if off = inner.length then .error (.asn1Error 12)
  else
    match parseTagAndLength inner off with
    | .error e => .error e
    | .ok (t, off2) =>
      if ¬ (t.cls = 0 ∧ t.tag = 2 ∧ t.isCompound = false) then .error (.asn1Error 10)
      else if inner.length < off2 + t.len then .error (.asn1Error 11)
      else
        match asn1IntValue ((inner.drop off2).take t.len) with
        | .error e => .error e
        | .ok v => .ok (v, off2 + t.len)

/-- Go `asn1.Unmarshal(bytes, &ecdsaSig{})`: a universal compound SEQUENCE
holding two INTEGERs.  Extra bytes at the end of the SEQUENCE are
permitted, as in Go's `encoding/asn1`; bytes after the SEQUENCE are
returned as the rest. -/
def asn1UnmarshalEcdsaSig (bytes : List Nat) : Except GoErr ((Int × Int) × List Nat) :=
  if bytes.length = 0 then .error (.asn1Error 12)
  else
    match parseTagAndLength bytes 0 with
    | .error e => .error e
    | .ok (t, off) =>
      if ¬ (t.cls = 0 ∧ t.tag = 16 ∧ t.isCompound = true) then .error (.asn1Error 10)
      else if bytes.length < off + t.len then .error (.asn1Error 11)
      else
        let inner := (bytes.drop off).take t.len
        match parseIntField inner 0 with
        | .error e => .error e
        | .ok (r, o1) =>
          match parseIntField inner o1 with
          | .error e => .error e
          | .ok (s, _o2) => .ok ((r, s), bytes.drop (off + t.len))

/-! ## parseSignResponse (src/auth.go lines 134-160) -/

/-- Result of parsing the signature data of a sign response (Go
`authResp`; the `sig ecdsaSig` field is flattened into `sigR`, `sigS`). -/
structure AuthResp where
  userPresenceVerified : Bool
  counter : Nat
  sigR : Int
  sigS : Int
  raw : List Nat
deriving DecidableEq, Repr

/-- Embedding of `parseSignResponse`.  The counter is
`uint32(sd[1])<<24 | uint32(sd[2])<<16 | uint32(sd[3])<<8 | uint32(sd[4])`;
the shifted bytes occupy disjoint bit ranges, so the Go `|` is written as
the equal big-endian sum. -/
def parseSignResponse (sd : List Nat) : Except GoErr AuthResp :=
  if sd.length < 5 then .error .tooShort
  else
    let userPresence := sd.getD 0 0
    if userPresence ||| 1 ≠ 1 then .error .invalidPresenceByte
    else
      let counter :=
        sd.getD 1 0 * 16777216 + sd.getD 2 0 * 65536 + sd.getD 3 0 * 256 + sd.getD 4 0
      match asn1UnmarshalEcdsaSig (sd.drop 5) with
      | .error e => .error e
      | .ok ((r, s), rest) =>
        if rest ≠ [] then .error .trailingData
        else .ok ⟨userPresence == 1, counter, r, s, sd.take 5⟩

example :
    parseSignResponse [1, 0, 0, 0, 7, 48, 6, 2, 1, 1, 2, 1, 2] =
      .ok ⟨true, 7, 1, 2, [1, 0, 0, 0, 7]⟩ := by decide

example : parseSignResponse [1, 0, 0, 0] = .error .tooShort := by decide

example :
    parseSignResponse [2, 0, 0, 0, 7, 48, 6, 2, 1, 1, 2, 1, 2] =
      .error .invalidPresenceByte := by decide

example :
    parseSignResponse [0, 0, 0, 0, 7, 48, 6, 2, 1, 1, 2, 1, 2, 9] =
      .error .trailingData := by decide

/-! ## SHA-256 (crypto/sha256)

Executable embedding of SHA-256, used by the signature-verification
routines.  Words are `Nat` values reduced modulo 2^32. -/

/-- Big-endian value of a byte sequence. -/
def beNat (l : List Nat) : Nat := l.foldl (fun acc b => acc * 256 + b) 0

/-- Right-rotation of a 32-bit word. -/
def rotr32 (n x : Nat) : Nat := x / 2 ^ n + x % 2 ^ n * 2 ^ (32 - n)

/-- SHA-256 round constants. -/
def sha256K : List Nat :=
  [1116352408, 1899447441, 3049323471, 3921009573, 961987163, 1508970993,
   2453635748, 2870763221, 3624381080, 310598401, 607225278, 1426881987,
   1925078388, 2162078206, 2614888103, 3248222580, 3835390401, 4022224774,
   264347078, 604807628, 770255983, 1249150122, 1555081692, 1996064986,
   2554220882, 2821834349, 2952996808, 3210313671, 3336571891, 3584528711,
   113926993, 338241895, 666307205, 773529912, 1294757372, 1396182291,
   1695183700, 1986661051, 2177026350, 2456956037, 2730485921, 2820302411,
   3259730800, 3345764771, 3516065817, 3600352804, 4094571909, 275423344,
   430227734, 506948616, 659060556, 883997877, 958139571, 1322822218,
   1537002063, 1747873779, 1955562222, 2024104815, 2227730452, 2361852424,
   2428436474, 2756734187, 3204031479, 3329325298]

/-- SHA-256 initial hash state. -/
def sha256H0 : List Nat :=
  [1779033703, 3144134277, 1013904242, 2773480762, 1359893119, 2600822924,
   528734635, 1541459225]

/-- Split a byte list into big-endian 32-bit words. -/
def bytesToWords : List Nat → List Nat
  | b0 :: b1 :: b2 :: b3 :: rest =>
    (b0 * 16777216 + b1 * 65536 + b2 * 256 + b3) :: bytesToWords rest
  | _ => []

/-- Extend a 16-word block to the 64-word message schedule; `fuel` counts
the remaining words to append (48 at the top call). -/
def sha256Schedule : Nat → List Nat → List Nat
  | 0, w => w
  | fuel + 1, w =>
    let i := w.length
    let s0 :=
      let x := w.getD (i - 15) 0
      (rotr32 7 x ^^^ rotr32 18 x ^^^ x / 8) % 4294967296
    let s1 :=
      let x := w.getD (i - 2) 0
      (rotr32 17 x ^^^ rotr32 19 x ^^^ x / 1024) % 4294967296
    sha256Schedule fuel (w ++ [(w.getD (i - 16) 0 + s0 + w.getD (i - 7) 0 + s1) % 4294967296])

/-- One compression round: state is the eight working variables. -/
def sha256Round (st : List Nat) (kw : Nat × Nat) : List Nat :=
  match st with
  | a :: b :: c :: d :: e :: f :: g :: h :: _ =>
    let s1 := (rotr32 6 e ^^^ rotr32 11 e ^^^ rotr32 25 e) % 4294967296
    let ch := (e &&& f) ^^^ ((e ^^^ 4294967295) &&& g)
    let t1 := (h + s1 + ch + kw.1 + kw.2) % 4294967296
    let s0 := (rotr32 2 a ^^^ rotr32 13 a ^^^ rotr32 22 a) % 4294967296
    let mj := (a &&& b) ^^^ (a &&& c) ^^^ (b &&& c)
    let t2 := (s0 + mj) % 4294967296
    [(t1 + t2) % 4294967296, a, b, c, (d + t1) % 4294967296, e, f, g]
  | other => other

/-- Compress one 64-byte block into the hash state. -/
def sha256Block (h : List Nat) (block : List Nat) : List Nat :=
  let w := sha256Schedule 48 (bytesToWords block)
  let st := (sha256K.zip w).foldl sha256Round h
  (h.zip st).map (fun p => (p.1 + p.2) % 4294967296)

/-- Big-endian bytes of a value, `k` bytes wide. -/
def natToBytesBE : Nat → Nat → List Nat
  | 0, _ => []
  | k + 1, v => v / 256 ^ k % 256 :: natToBytesBE k v

/-- SHA-256 padding: append `0x80`, zeros to 56 mod 64, and the 64-bit
big-endian bit length. -/
def sha256Pad (msg : List Nat) : List Nat :=
  msg ++ 128 :: List.replicate ((64 - (msg.length + 9) % 64) % 64) 0 ++
    natToBytesBE 8 (msg.length * 8)

/-- Iterate the compression function over the blocks; fuel decreases once
per block, so the padded length is always enough. -/
def sha256Blocks : Nat → List Nat → List Nat → List Nat
  | 0, h, _ => h
  | fuel + 1, h, data =>
    if data = [] then h
    else sha256Blocks fuel (sha256Block h (data.take 64)) (data.drop 64)

/-- SHA-256 digest of a byte sequence, as 32 bytes. -/
def sha256 (msg : List Nat) : List Nat :=
  let padded := sha256Pad msg
  (sha256Blocks padded.length sha256H0 padded).flatMap (natToBytesBE 4)

example :
    sha256 [97, 98, 99] =
      [186, 120, 22, 191, 143, 1, 207, 234, 65, 65, 64, 222, 93, 174, 34, 35,
       176, 3, 97, 163, 150, 23, 122, 156, 180, 16, 255, 97, 242, 0, 21, 173] := by
  decide

/-! ## P-256 and ECDSA (crypto/elliptic, crypto/ecdsa)

Mathematical model of the NIST P-256 group and ECDSA verification, as
specified for Go's `elliptic.P256()` and `ecdsa.Verify`.  Points are kept
in Jacobian coordinates `(X, Y, Z)` (affine `(X/Z², Y/Z³)`, `Z = 0` the
point at infinity). -/

/-- The P-256 field prime. -/
def pP256 : Nat :=
  115792089210356248762697446949407573530086143415290314195533631308867097853951

/-- The P-256 curve coefficient `a = -3 mod p`. -/
def aP256 : Nat := pP256 - 3

/-- The P-256 curve coefficient `b`. -/
def bP256 : Nat :=
  41058363725152142129326129780047268409114441015993725554835256314039467401291

/-- The order of the P-256 base point. -/
def nP256 : Nat :=
  115792089210356248762697446949407573529996955224135760342422259061068512044369

/-- Base point x-coordinate. -/
def gxP256 : Nat :=
  48439561293906451759052585252797914202762949526041747995844080717082404635286

/-- Base point y-coordinate. -/
def gyP256 : Nat :=
  36134250956749795798585127919587881956611106672985015071877198253568414405109

/-- Field addition modulo the P-256 prime. -/
def fadd (a b : Nat) : Nat := (a + b) % pP256

/-- Field subtraction modulo the P-256 prime. -/
def fsub (a b : Nat) : Nat := (a + (pP256 - b % pP256)) % pP256

/-- Field multiplication modulo the P-256 prime. -/
def fmul (a b : Nat) : Nat := a * b % pP256

/-- Binary modular exponentiation; fuel 257 covers any exponent below
2^256 (one halving per unit of fuel). -/
def powModAux (m : Nat) : Nat → Nat → Nat → Nat
  | 0, _b, _e => 1
  | fuel + 1, b, e =>
    if e = 0 then 1 % m
    else
      let r := powModAux m fuel (b * b % m) (e / 2)
      if e % 2 = 1 then r * b % m else r

/-- Modular exponentiation `b ^ e mod m`. -/
def powMod (b e m : Nat) : Nat := powModAux m 257 (b % m) e

/-- Modular inverse by Fermat's little theorem (the moduli used are the
primes `pP256` and `nP256`). -/
def invMod (a m : Nat) : Nat := powMod a (m - 2) m

/-- Jacobian point doubling on P-256. -/
def jDouble : Nat × Nat × Nat → Nat × Nat × Nat
  | (x, y, z) =>
    if z = 0 ∨ y = 0 then (0, 1, 0)
    else
      let ysq := fmul y y
      let s := fmul (fmul 4 x) ysq
      let zsq := fmul z z
      let m := fadd (fmul 3 (fmul x x)) (fmul aP256 (fmul zsq zsq))
      let x2 := fsub (fmul m m) (fmul 2 s)
      let y2 := fsub (fmul m (fsub s x2)) (fmul 8 (fmul ysq ysq))
      let z2 := fmul (fmul 2 y) z
      (x2, y2, z2)

/-- Jacobian point addition on P-256 (complete for the cases reachable
here: handles infinity and equal or opposite inputs). -/
def jAdd (p q : Nat × Nat × Nat) : Nat × Nat × Nat :=
  match p, q with
  | (x1, y1, z1), (x2, y2, z2) =>
    if z1 = 0 then (x2, y2, z2)
    else if z2 = 0 then (x1, y1, z1)
    else
      let z1sq := fmul z1 z1
      let z2sq := fmul z2 z2
      let u1 := fmul x1 z2sq
      let u2 := fmul x2 z1sq
      let s1 := fmul y1 (fmul z2sq z2)
      let s2 := fmul y2 (fmul z1sq z1)
      if u1 = u2 then
        if s1 ≠ s2 then (0, 1, 0) else jDouble (x1, y1, z1)
      else
        let h := fsub u2 u1
        let r := fsub s2 s1
        let hsq := fmul h h
        let hcu := fmul hsq h
        let x3 := fsub (fsub (fmul r r) hcu) (fmul 2 (fmul u1 hsq))
        let y3 := fsub (fmul r (fsub (fmul u1 hsq) x3)) (fmul s1 hcu)
        let z3 := fmul (fmul h z1) z2
        (x3, y3, z3)

/-- Double-and-add scalar multiplication; fuel 257 covers any scalar
below 2^256. -/
def jMulAux : Nat → Nat → Nat × Nat × Nat → Nat × Nat × Nat → Nat × Nat × Nat
  | 0, _k, acc, _base => acc
  | fuel + 1, k, acc, base =>
    if k = 0 then acc
    else
      jMulAux fuel (k / 2) (if k % 2 = 1 then jAdd acc base else acc) (jDouble base)

/-- Scalar multiplication `k · P` on P-256. -/
def jMul (k : Nat) (p : Nat × Nat × Nat) : Nat × Nat × Nat :=
  jMulAux 257 k (0, 1, 0) p

/-- The P-256 curve equation test `y² = x³ - 3x + b (mod p)`. -/
def p256OnCurve (x y : Nat) : Bool :=
  y * y % pP256 == (fmul x x * x + aP256 * x + bP256) % pP256

/-- Go `elliptic.Unmarshal(elliptic.P256(), data)`: exactly 65 bytes, the
uncompressed-form byte `0x04`, coordinates below the field prime, and the
point on the curve; `none` models the `x == nil` failure return. -/
def p256Unmarshal (data : List Nat) : Option (Nat × Nat) :=
  if data.length = 65 ∧ data.getD 0 0 = 4 then
    let x := beNat ((data.drop 1).take 32)
    let y := beNat ((data.drop 33).take 32)
    if x < pP256 ∧ y < pP256 ∧ p256OnCurve x y then some (x, y) else none
  else none

/-- Go `elliptic.Marshal(elliptic.P256(), x, y)`: the 65-byte uncompressed
form. -/
def p256Marshal (x y : Nat) : List Nat :=
  4 :: natToBytesBE 32 x ++ natToBytesBE 32 y

/-- Go `ecdsa.Verify(pub, hash, r, s)` for a P-256 key with a 32-byte
hash: reject out-of-range `r`, `s`; compute `u1·G + u2·Q` and compare the
affine x-coordinate with `r` modulo the group order. -/
def ecdsaVerifyP256 (pub : Nat × Nat) (hash : List Nat) (r s : Int) : Bool :=
  if r ≤ 0 ∨ s ≤ 0 then false
  else
    let rn := r.toNat
    let sn := s.toNat
    if nP256 ≤ rn ∨ nP256 ≤ sn then false
    else
      let e := beNat hash
      let w := invMod sn nP256
      let u1 := e * w % nP256
      let u2 := rn * w % nP256
      match jAdd (jMul u1 (gxP256, gyP256, 1)) (jMul u2 (pub.1, pub.2, 1)) with
      | (xj, _yj, zj) =>
        if zj = 0 then false
        else fmul xj (invMod (fmul zj zj) pP256) % nP256 == rn

/-! ## X.509 certificates (crypto/x509, the parts this library reads)

The library uses a parsed certificate only for its raw DER bytes, its
embedded public key (always a P-256 key here) and `CheckSignature` with
`ECDSAWithSHA256`.  `x509ParseMinimal` is the corresponding focused model
of `x509.ParseCertificate`: it walks the DER structure down to the
subjectPublicKeyInfo BIT STRING and records the raw bytes and key. -/

/-- A parsed certificate, reduced to the fields the library reads. -/
structure Cert where
  raw : List Nat
  pubX : Nat
  pubY : Nat
deriving DecidableEq, Repr

/-- Split one DER TLV off the front of a byte list: its tag data, its
content octets, and the remaining bytes. -/
def derSplit (bs : List Nat) : Option (TagLen × List Nat × List Nat) :=
  match parseTagAndLength bs 0 with
  | .error _ => none
  | .ok (t, off) =>
    if bs.length < off + t.len then none
    else some (t, (bs.drop off).take t.len, bs.drop (off + t.len))

/-- Skip `k` DER TLVs. -/
def derSkip : Nat → List Nat → Option (List Nat)
  | 0, bs => some bs
  | k + 1, bs =>
    match derSplit bs with
    | none => none
    | some (_, _, rest) => derSkip k rest

/-- Focused model of Go `x509.ParseCertificate` for certificates with a
P-256 subject key: Certificate ::= SEQUENCE { tbsCertificate, sigAlg,
sigValue }; tbsCertificate ::= SEQUENCE { [0] version OPTIONAL, serial,
signature, issuer, validity, subject, subjectPublicKeyInfo, ... };
subjectPublicKeyInfo ::= SEQUENCE { algorithm, subjectPublicKey BIT
STRING }.  Trailing bytes after the outer SEQUENCE are rejected, as in
Go.  Numeric error codes stand for Go's various parse errors. -/
def x509ParseMinimal (der : List Nat) : Except Nat Cert :=
  match derSplit der with
  | none => .error 0
  | some (t0, certContent, rest0) =>
    if ¬ (t0.cls = 0 ∧ t0.tag = 16 ∧ t0.isCompound = true) ∨ rest0 ≠ [] then .error 1
    else
      match derSplit certContent with
      | none => .error 2
      | some (t1, tbs, _sigAlgAndValue) =>
        if t1.tag ≠ 16 then .error 3
        else
          let afterVersion :=
            match derSplit tbs with
            | some (tv, _c, restv) => if tv.cls = 2 ∧ tv.tag = 0 then restv else tbs
            | none => tbs
          match derSkip 5 afterVersion with
          | none => .error 4
          | some spkiStart =>
            match derSplit spkiStart with
            | none => .error 5
            | some (tspki, spki, _rest) =>
              if tspki.tag ≠ 16 then .error 6
              else
                match derSplit spki with
                | none => .error 7
                | some (_talg, _alg, afterAlg) =>
                  match derSplit afterAlg with
                  | none => .error 8
                  | some (tbits, bits, _r2) =>
                    if tbits.tag ≠ 3 then .error 9
                    else
                      match bits with
                      | 0 :: point =>
                        match p256Unmarshal point with
                        | some (x, y) => .ok ⟨der, x, y⟩
                        | none => .error 10
                      | _ => .error 11

/-- Go `cert.CheckSignature(x509.ECDSAWithSHA256, signed, signature)`:
hash the signed bytes, DER-decode the signature into `(r, s)` rejecting
trailing bytes and non-positive values, and verify against the
certificate's public key. -/
def certCheckSignatureECDSA (cert : Cert) (signed sig : List Nat) : Option GoErr :=
  let digest := sha256 signed
  match asn1UnmarshalEcdsaSig sig with
  | .error e => some e
  | .ok ((r, s), rest) =>
    if rest ≠ [] then some .x509TrailingSig
    else if r ≤ 0 ∨ s ≤ 0 then some .x509NonPositiveSig
    else if ecdsaVerifyP256 (cert.pubX, cert.pubY) digest r s then none
    else some .invalidSignature

/-! ## Library data model (src/messages.go, src/util.go, src/register.go)

Go strings are byte lists.  `Challenge.timestamp` and the `now` arguments
are wall-clock instants in nanoseconds, so `now - timestamp` is Go's
`time.Now().Sub(c.Timestamp)`. -/

/-- ClientData as defined by the FIDO U2F raw message formats
specification (src/messages.go lines 22-27). -/
structure ClientData where
  typ : List Nat
  challenge : List Nat
  origin : List Nat
  cidPubKey : List Nat
deriving DecidableEq, Repr

/-- A single enrolment between an application and a token
(src/register.go lines 27-36). -/
structure Registration where
  keyHandle : List Nat
  pubKey : Nat × Nat
  counter : Nat
  attestationCert : Option Cert
  signature : List Nat
deriving DecidableEq, Repr

/-- A single server/authenticator transaction (src/util.go lines
116-122). -/
structure Challenge where
  challenge : List Nat
  timestamp : Int
  appID : List Nat
  trustedFacets : List (List Nat)
  registeredKeys : List Registration
deriving DecidableEq, Repr

/-- SignResponse as defined by the FIDO U2F JavaScript API. -/
structure SignResponse where
  keyHandle : List Nat
  signatureData : List Nat
  clientData : List Nat
deriving DecidableEq, Repr

/-- RegisterResponse as defined by the FIDO U2F JavaScript API. -/
structure RegisterResponse where
  registrationData : List Nat
  clientData : List Nat
deriving DecidableEq, Repr

/-- The challenge validity window, `5 * time.Minute` in nanoseconds
(src/util.go line 100). -/
def timeout : Int := 300000000000

/-- Go `subtle.ConstantTimeCompare`: equals 1 (here `true`) exactly when
the lengths match and all bytes are equal. -/
def constantTimeCompare (x y : List Nat) : Bool :=
  if x.length = y.length then
    ((x.zip y).foldl (fun acc p => acc ||| (p.1 ^^^ p.2)) 0) == 0
  else false

/-- Body of `verifyClientData` (src/util.go lines 299-323) after the JSON
unmarshal: origin membership in the trusted facets, then the challenge
comparison against the re-encoded nonce.  The `typ` field is not
inspected. -/
def verifyClientDataParsed (cd : ClientData) (challenge : Challenge) : Option GoErr :=
  if ¬ challenge.trustedFacets.any (fun facetID => facetID == cd.origin) then
    some .untrustedFacet
  else
    let c := encodeBase64 challenge.challenge
    if c.length ≠ cd.challenge.length ∨ ¬ constantTimeCompare c cd.challenge then
      some .challengeMismatch
    else none

/-- Embedding of `verifyClientData`: JSON-unmarshal (abstract `jsonParse` parameter for
`encoding/json`), then the parsed checks. -/
def verifyClientData (jsonParse : List Nat → Except Nat ClientData)
    (clientData : List Nat) (challenge : Challenge) : Option GoErr :=
  match jsonParse clientData with
  | .error e => some (.jsonError e)
  | .ok cd => verifyClientDataParsed cd challenge

/-- Embedding of `verifyAuthSignature` (src/auth.go lines 162-177): hash
`SHA256(appID) || raw || SHA256(clientData)` and verify with the
registration's public key.  `ecdsaV` abstracts `ecdsa.Verify`
(instantiate with `ecdsaVerifyP256` for the concrete semantics). -/
def verifyAuthSignature (ecdsaV : (Nat × Nat) → List Nat → Int → Int → Bool)
    (ar : AuthResp) (pubKey : Nat × Nat) (appID : List Nat)
    (clientData : List Nat) : Option GoErr :=
  let appParam := sha256 appID
  let challenge := sha256 clientData
  let hash := sha256 (appParam ++ ar.raw ++ challenge)
  if ecdsaV pubKey hash ar.sigR ar.sigS then none else some .invalidSignature

/-- Result of `Registration.Authenticate`.  The Go method has signature
`(reg *Registration) Authenticate(resp, c, counter) (newCounter uint32,
err error)`; its body contains no assignment through `reg` or to `c`, so
the embedding returns both unchanged alongside Go's `(newCounter, err)`
pair. -/
structure AuthOut where
  reg : Registration
  chal : Challenge
  newCounter : Nat
  err : Option GoErr
deriving DecidableEq, Repr

/-- Embedding of `Registration.Authenticate` (src/auth.go lines 80-121):
expiry check, key-handle comparison, base64 decodes, signature-data
parse, counter anti-replay check, client-data verification, signature
verification, user-presence requirement. -/
def Registration.Authenticate (jsonParse : List Nat → Except Nat ClientData)
    (ecdsaV : (Nat × Nat) → List Nat → Int → Int → Bool)
    (reg : Registration) (resp : SignResponse) (c : Challenge)
    (counter : Nat) (now : Int) : AuthOut :=
  if now - c.timestamp > timeout then ⟨reg, c, 0, some .challengeExpired⟩
  else if resp.keyHandle ≠ encodeBase64 reg.keyHandle then
    ⟨reg, c, 0, some .wrongKeyHandle⟩
  else
    match decodeBase64 resp.signatureData with
    | .error e => ⟨reg, c, 0, some e⟩
    | .ok sigData =>
      match decodeBase64 resp.clientData with
      | .error e => ⟨reg, c, 0, some e⟩
      | .ok clientData =>
        match parseSignResponse sigData with
        | .error e => ⟨reg, c, 0, some e⟩
        | .ok ar =>
          if ar.counter < counter then ⟨reg, c, 0, some .counterNotIncreasing⟩
          else
            match verifyClientData jsonParse clientData c with
            | some e => ⟨reg, c, 0, some e⟩
            | none =>
              match verifyAuthSignature ecdsaV ar reg.pubKey c.appID clientData with
              | some e => ⟨reg, c, 0, some e⟩
              | none =>
                if ¬ ar.userPresenceVerified then ⟨reg, c, 0, some .userNotPresent⟩
                else ⟨reg, c, ar.counter, none⟩

/-- Embedding of `parseRegistration` (src/register.go lines 76-123).  The
certificate's extent is measured with a raw ASN.1 parse; the bytes after
it are the registration signature.  `x509P` abstracts
`x509.ParseCertificate` (instantiate with `x509ParseMinimal`). -/
def parseRegistration (x509P : List Nat → Except Nat Cert)
    (buf : List Nat) : Except GoErr Registration :=
  if buf.length < 69 then .error .tooShort
  else if buf.getD 0 0 ≠ 5 then .error .invalidReservedByte
  else
    let rest1 := buf.drop 1
    match p256Unmarshal (rest1.take 65) with
    | none => .error .invalidPublicKey
    | some pub =>
      let rest2 := rest1.drop 65
      let khLen := rest2.getD 0 0
      let rest3 := rest2.drop 1
      if rest3.length < khLen then .error .invalidKeyHandle
      else
        let kh := rest3.take khLen
        let rest4 := rest3.drop khLen
        match asn1UnmarshalRaw rest4 with
        | .error e => .error e
        | .ok (consumed, sigRest) =>
          match x509P (rest4.take consumed) with
          | .error e => .error (.x509Error e)
          | .ok cert => .ok ⟨kh, pub, 0, some cert, sigRest⟩

/-- Embedding of `verifyAttestationCert` (src/register.go lines 125-129): verification
against the configured roots, abstracted as `certVerify` (the root pool
is package-level state outside this embedding). -/
def verifyAttestationCert (certVerify : Cert → Option Nat)
    (r : Registration) : Option GoErr :=
  match r.attestationCert with
  | none => some (.certVerifyError 999)
  | some cert =>
    match certVerify cert with
    | some e => some (.certVerifyError e)
    | none => none

/-- Embedding of `verifyRegistrationSignature` (src/register.go lines 131-146):
reconstruct `0x00 || SHA256(appid) || SHA256(clientData) || keyHandle ||
publicKey` and check it against the attestation certificate.  `checkSig`
abstracts `cert.CheckSignature` (instantiate with
`certCheckSignatureECDSA`). -/
def verifyRegistrationSignature (checkSig : Cert → List Nat → List Nat → Option GoErr)
    (r : Registration) (appid : List Nat) (clientData : List Nat) : Option GoErr :=
  let appParam := sha256 appid
  let challenge := sha256 clientData
  let buf := 0 :: (appParam ++ challenge ++ r.keyHandle ++
    p256Marshal r.pubKey.1 r.pubKey.2)
  match r.attestationCert with
  | none => some (.x509Error 999)
  | some cert => checkSig cert buf r.signature

/-- Embedding of `Register` (src/register.go lines 41-74): expiry check,
base64 decodes, raw-registration parse, client-data verification,
attestation-certificate verification, registration-signature
verification. -/
def Register (jsonParse : List Nat → Except Nat ClientData)
    (x509P : List Nat → Except Nat Cert)
    (certVerify : Cert → Option Nat)
    (checkSig : Cert → List Nat → List Nat → Option GoErr)
    (resp : RegisterResponse) (c : Challenge) (now : Int) :
    Except GoErr Registration :=
  if now - c.timestamp > timeout then .error .challengeExpired
  else
    match decodeBase64 resp.registrationData with
    | .error e => .error e
    | .ok regData =>
      match decodeBase64 resp.clientData with
      | .error e => .error e
      | .ok clientData =>
        match parseRegistration x509P regData with
        | .error e => .error e
        | .ok reg =>
          match verifyClientData jsonParse clientData c with
          | some e => .error e
          | none =>
            match verifyAttestationCert certVerify reg with
            | some e => .error e
            | none =>
              match verifyRegistrationSignature checkSig reg c.appID clientData with
              | some e => .error e
              | none => .ok reg

/-! ## Virtual Authenticator (src/unnamed/part_015, lines 248-520)

The virtual key plays the token side of the protocol for integration
testing.  Key generation, JSON marshalling and ECDSA signing are abstract
parameters (they involve fresh randomness); everything that determines
control flow and the bytes around the signature is embedded. -/

/-- A key the virtual token stores for one registration (`keyInst`). -/
structure VKeyInst where
  generated : Int
  appID : List Nat
  keyHandle : List Nat
  priv : Nat
  counter : Int
deriving DecidableEq, Repr

/-- The virtual U2F key. -/
structure VirtualKey where
  attestationKey : Nat
  attestationCertBytes : List Nat
  keys : List VKeyInst
deriving DecidableEq, Repr

/-- An entry of a request's `registeredKeys` list. -/
structure RegisteredKey where
  version : List Nat
  keyHandle : List Nat
deriving DecidableEq, Repr

/-- The wrapped sign request message passed to the virtual key. -/
structure SignRequestMessage where
  appID : List Nat
  challenge : List Nat
  registeredKeys : List RegisteredKey
deriving DecidableEq, Repr

/-- One inner register request of a register request message. -/
structure U2fRegisterRequest where
  version : List Nat
  challenge : List Nat
deriving DecidableEq, Repr

/-- The wrapped register request message passed to the virtual key. -/
structure RegisterRequestMessage where
  appID : List Nat
  registerRequests : List U2fRegisterRequest
  registeredKeys : List RegisteredKey
deriving DecidableEq, Repr

/-- Embedding of `getKeyByAppIDAndKeyHandle`: Go iterates `for _, v := range vk.keys`
and returns `&v` on a match.  The range variable `v` is a copy of the
slice element, so the returned pointer aliases that copy, never
`vk.keys` itself; the embedding accordingly returns the element by
value, and callers that write through the Go pointer do not change
`vk.keys`. -/
def getKeyByAppIDAndKeyHandle (vk : VirtualKey) (appId keyHandle : List Nat) :
    Option VKeyInst :=
  vk.keys.find? (fun v => v.appID == appId && v.keyHandle == keyHandle)

/-- The search loop at the top of `HandleAuthenticationRequest`: base64
decode each presented key handle (a failed decode leaves the nil handle,
as Go ignores the error) and look it up; the first hit wins. -/
def findRegisteredKeyInst (vk : VirtualKey) (appID : List Nat) :
    List RegisteredKey → Option VKeyInst
  | [] => none
  | k :: rest =>
    let kh := match decodeBase64 k.keyHandle with | .ok b => b | .error _ => []
    match getKeyByAppIDAndKeyHandle vk appID kh with
    | some ki => some ki
    | none => findRegisteredKeyInst vk appID rest

/-- Decimal digits of a number (for `fmt.Sprintf` of a key index). -/
def natDecimalAux : Nat → Nat → List Nat
  | 0, _ => []
  | fuel + 1, n => if n < 10 then [48 + n] else natDecimalAux fuel (n / 10) ++ [48 + n % 10]

/-- Byte string of a number in decimal. -/
def natDecimal (n : Nat) : List Nat := natDecimalAux (n + 1) n

/-- Bytes of the string `virtualkey-`. -/
def virtualkeyPrefix : List Nat := [118, 105, 114, 116, 117, 97, 108, 107, 101, 121, 45]

/-- Embedding of `VirtualKey.HandleRegisterRequest` (part_015 lines
380-436).  `jsonM` abstracts `json.Marshal` of the ClientData built from
origin and challenge; `genPriv`/`genPub` stand for the freshly generated
per-registration key pair; `regSigO` abstracts
`generateRegistrationSig`.  Go indexes `req.RegisterRequests[0]` without
a bounds check (a panic on empty input); the embedding reads the head
with a default.  On success the new key instance is appended with
`Counter: 0`. -/
def VirtualKey.HandleRegisterRequest (jsonM : List Nat → List Nat → List Nat)
    (genPriv : Nat) (genPub : Nat × Nat)
    (regSigO : List Nat → List Nat → List Nat → Nat × Nat → Nat → List Nat)
    (now : Int) (vk : VirtualKey) (req : RegisterRequestMessage) :
    Option RegisterResponse × VirtualKey :=
  if req.registeredKeys.any
      (fun k => (getKeyByAppIDAndKeyHandle vk req.appID k.keyHandle).isSome) then
    (none, vk)
  else
    let keyHandle := virtualkeyPrefix ++ natDecimal vk.keys.length
    let cdJson := jsonM req.appID ((req.registerRequests.headD ⟨[], []⟩).challenge)
    let buf := 5 :: (p256Marshal genPub.1 genPub.2 ++ [keyHandle.length % 256] ++
      keyHandle ++ vk.attestationCertBytes ++
      regSigO req.appID cdJson keyHandle genPub vk.attestationKey)
    let rr : RegisterResponse := ⟨encodeBase64 buf, encodeBase64 cdJson⟩
    let newInst : VKeyInst := ⟨now, req.appID, keyHandle, genPriv, 0⟩
    (some rr, ⟨vk.attestationKey, vk.attestationCertBytes, vk.keys ++ [newInst]⟩)

/-- Embedding of `VirtualKey.HandleAuthenticationRequest` (part_015 lines
469-520).  `signO` abstracts `generateAuthenticationSig`.  The source
runs `keyInstance.Counter = keyInstance.Counter + 1`, but `keyInstance`
is the pointer to a range-loop copy returned by
`getKeyByAppIDAndKeyHandle`, so the write lands in that copy and
`vk.keys` keeps its stored counters; the returned state is therefore the
unchanged `vk`.  The signed data is
`0x01 || uint32(Counter) big-endian || signature` (the `Int.toNat` models
Go's `uint32(int)` conversion for the non-negative counters this type
ever holds; `natToBytesBE 4` truncates to 32 bits like `PutUint32`). -/
def VirtualKey.HandleAuthenticationRequest (jsonM : List Nat → List Nat → List Nat)
    (signO : List Nat → List Nat → List Nat → Nat → List Nat)
    (vk : VirtualKey) (req : SignRequestMessage) :
    Option SignResponse × VirtualKey :=
  match findRegisteredKeyInst vk req.appID req.registeredKeys with
  | none => (none, vk)
  | some keyInstance =>
    let keyHandleField := encodeBase64 keyInstance.keyHandle
    let ctr := keyInstance.counter + 1
    let cdJson := jsonM req.appID req.challenge
    let sigData := 1 :: natToBytesBE 4 ctr.toNat
    let sig := signO req.appID cdJson sigData keyInstance.priv
    (some ⟨keyHandleField, encodeBase64 (sigData ++ sig), encodeBase64 cdJson⟩, vk)

/-! ## The FIDO U2F raw message format example (section 8.1 test vector)

Concrete data of `TestRegistrationExample` (src/unnamed/part_017). -/

/-- The example registration response of FIDO U2F Raw Message Formats section 8.1 (the hex blob of TestRegistrationExample). -/
def regRespExample : List Nat :=
  [
   5, 4, 177, 116, 188, 73, 199, 202, 37, 75, 112, 210, 229, 194, 7, 206,
   233, 207, 23, 72, 32, 235, 215, 126, 163, 198, 85, 8, 194, 109, 165, 27,
   101, 124, 28, 198, 185, 82, 248, 98, 22, 151, 147, 100, 130, 218, 10, 109,
   61, 56, 38, 165, 144, 149, 218, 246, 205, 124, 3, 226, 230, 3, 133, 210,
   246, 217, 64, 42, 85, 45, 253, 183, 71, 126, 214, 95, 216, 65, 51, 248,
   97, 150, 1, 11, 34, 21, 181, 125, 167, 93, 49, 91, 123, 158, 143, 226,
   227, 146, 90, 96, 25, 85, 27, 171, 97, 209, 101, 145, 101, 156, 186, 240,
   11, 73, 80, 247, 171, 254, 102, 96, 226, 224, 6, 247, 104, 104, 183, 114,
   215, 12, 37, 48, 130, 1, 60, 48, 129, 228, 160, 3, 2, 1, 2, 2,
   10, 71, 144, 18, 128, 0, 17, 85, 149, 115, 82, 48, 10, 6, 8, 42,
   134, 72, 206, 61, 4, 3, 2, 48, 23, 49, 21, 48, 19, 6, 3, 85,
   4, 3, 19, 12, 71, 110, 117, 98, 98, 121, 32, 80, 105, 108, 111, 116,
   48, 30, 23, 13, 49, 50, 48, 56, 49, 52, 49, 56, 50, 57, 51, 50,
   90, 23, 13, 49, 51, 48, 56, 49, 52, 49, 56, 50, 57, 51, 50, 90,
   48, 49, 49, 47, 48, 45, 6, 3, 85, 4, 3, 19, 38, 80, 105, 108,
   111, 116, 71, 110, 117, 98, 98, 121, 45, 48, 46, 52, 46, 49, 45, 52,
   55, 57, 48, 49, 50, 56, 48, 48, 48, 49, 49, 53, 53, 57, 53, 55,
   51, 53, 50, 48, 89, 48, 19, 6, 7, 42, 134, 72, 206, 61, 2, 1,
   6, 8, 42, 134, 72, 206, 61, 3, 1, 7, 3, 66, 0, 4, 141, 97,
   126, 101, 201, 80, 142, 100, 188, 197, 103, 58, 200, 42, 103, 153, 218, 60,
   20, 70, 104, 44, 37, 140, 70, 63, 255, 223, 88, 223, 210, 250, 62, 108,
   55, 139, 83, 215, 149, 196, 164, 223, 251, 65, 153, 237, 215, 134, 47, 35,
   171, 175, 2, 3, 180, 184, 145, 27, 160, 86, 153, 148, 225, 1, 48, 10,
   6, 8, 42, 134, 72, 206, 61, 4, 3, 2, 3, 71, 0, 48, 68, 2,
   32, 96, 205, 182, 6, 30, 156, 34, 38, 45, 26, 172, 29, 150, 216, 199,
   8, 41, 178, 54, 101, 49, 221, 162, 104, 131, 44, 184, 54, 188, 211, 13,
   250, 2, 32, 99, 27, 20, 89, 240, 158, 99, 48, 5, 87, 34, 200, 216,
   155, 127, 72, 136, 59, 144, 137, 184, 141, 96, 209, 217, 121, 89, 2, 179,
   4, 16, 223, 48, 69, 2, 32, 20, 113, 137, 155, 204, 57, 135, 230, 46,
   130, 2, 201, 179, 156, 51, 193, 144, 51, 247, 52, 3, 82, 219, 168, 15,
   202, 176, 23, 219, 146, 48, 228, 2, 33, 0, 130, 103, 125, 103, 61, 137,
   25, 51, 173, 230, 246, 23, 229, 219, 222, 46, 36, 126, 112, 66, 63, 213,
   173, 120, 4, 166, 211, 211, 150, 30, 248, 113
  ]

/-- The expected key handle of the example registration. -/
def khExample : List Nat :=
  [
   42, 85, 45, 253, 183, 71, 126, 214, 95, 216, 65, 51, 248, 97, 150, 1,
   11, 34, 21, 181, 125, 167, 93, 49, 91, 123, 158, 143, 226, 227, 146, 90,
   96, 25, 85, 27, 171, 97, 209, 101, 145, 101, 156, 186, 240, 11, 73, 80,
   247, 171, 254, 102, 96, 226, 224, 6, 247, 104, 104, 183, 114, 215, 12, 37
  ]

/-- The expected attestation certificate DER of the example registration. -/
def certExample : List Nat :=
  [
   48, 130, 1, 60, 48, 129, 228, 160, 3, 2, 1, 2, 2, 10, 71, 144,
   18, 128, 0, 17, 85, 149, 115, 82, 48, 10, 6, 8, 42, 134, 72, 206,
   61, 4, 3, 2, 48, 23, 49, 21, 48, 19, 6, 3, 85, 4, 3, 19,
   12, 71, 110, 117, 98, 98, 121, 32, 80, 105, 108, 111, 116, 48, 30, 23,
   13, 49, 50, 48, 56, 49, 52, 49, 56, 50, 57, 51, 50, 90, 23, 13,
   49, 51, 48, 56, 49, 52, 49, 56, 50, 57, 51, 50, 90, 48, 49, 49,
   47, 48, 45, 6, 3, 85, 4, 3, 19, 38, 80, 105, 108, 111, 116, 71,
   110, 117, 98, 98, 121, 45, 48, 46, 52, 46, 49, 45, 52, 55, 57, 48,
   49, 50, 56, 48, 48, 48, 49, 49, 53, 53, 57, 53, 55, 51, 53, 50,
   48, 89, 48, 19, 6, 7, 42, 134, 72, 206, 61, 2, 1, 6, 8, 42,
   134, 72, 206, 61, 3, 1, 7, 3, 66, 0, 4, 141, 97, 126, 101, 201,
   80, 142, 100, 188, 197, 103, 58, 200, 42, 103, 153, 218, 60, 20, 70, 104,
   44, 37, 140, 70, 63, 255, 223, 88, 223, 210, 250, 62, 108, 55, 139, 83,
   215, 149, 196, 164, 223, 251, 65, 153, 237, 215, 134, 47, 35, 171, 175, 2,
   3, 180, 184, 145, 27, 160, 86, 153, 148, 225, 1, 48, 10, 6, 8, 42,
   134, 72, 206, 61, 4, 3, 2, 3, 71, 0, 48, 68, 2, 32, 96, 205,
   182, 6, 30, 156, 34, 38, 45, 26, 172, 29, 150, 216, 199, 8, 41, 178,
   54, 101, 49, 221, 162, 104, 131, 44, 184, 54, 188, 211, 13, 250, 2, 32,
   99, 27, 20, 89, 240, 158, 99, 48, 5, 87, 34, 200, 216, 155, 127, 72,
   136, 59, 144, 137, 184, 141, 96, 209, 217, 121, 89, 2, 179, 4, 16, 223
  ]

/-- The expected registration signature DER of the example registration. -/
def sigExample : List Nat :=
  [
   48, 69, 2, 32, 20, 113, 137, 155, 204, 57, 135, 230, 46, 130, 2, 201,
   179, 156, 51, 193, 144, 51, 247, 52, 3, 82, 219, 168, 15, 202, 176, 23,
   219, 146, 48, 228, 2, 33, 0, 130, 103, 125, 103, 61, 137, 25, 51, 173,
   230, 246, 23, 229, 219, 222, 46, 36, 126, 112, 66, 63, 213, 173, 120, 4,
   166, 211, 211, 150, 30, 248, 113
  ]

/-- Bytes of the app id string of the example (http: slash slash example.com). -/
def appIdExample : List Nat :=
  [
   104, 116, 116, 112, 58, 47, 47, 101, 120, 97, 109, 112, 108, 101, 46, 99,
   111, 109
  ]

/-- Bytes of the ClientData JSON of the example registration. -/
def clientDataExample : List Nat :=
  [
   123, 34, 116, 121, 112, 34, 58, 34, 110, 97, 118, 105, 103, 97, 116, 111,
   114, 46, 105, 100, 46, 102, 105, 110, 105, 115, 104, 69, 110, 114, 111, 108,
   108, 109, 101, 110, 116, 34, 44, 34, 99, 104, 97, 108, 108, 101, 110, 103,
   101, 34, 58, 34, 118, 113, 114, 83, 54, 87, 88, 68, 101, 49, 74, 85,
   115, 53, 95, 99, 51, 105, 52, 45, 76, 107, 75, 73, 72, 82, 114, 45,
   51, 88, 86, 98, 51, 97, 122, 117, 65, 53, 84, 105, 102, 72, 111, 34,
   44, 34, 99, 105, 100, 95, 112, 117, 98, 107, 101, 121, 34, 58, 123, 34,
   107, 116, 121, 34, 58, 34, 69, 67, 34, 44, 34, 99, 114, 118, 34, 58,
   34, 80, 45, 50, 53, 54, 34, 44, 34, 120, 34, 58, 34, 72, 122, 81,
   119, 108, 102, 88, 88, 55, 81, 52, 83, 53, 77, 116, 67, 67, 110, 90,
   85, 78, 66, 119, 51, 82, 77, 122, 80, 79, 57, 116, 79, 121, 87, 106,
   66, 113, 82, 108, 52, 116, 74, 56, 34, 44, 34, 121, 34, 58, 34, 88,
   86, 103, 117, 71, 70, 76, 73, 90, 120, 49, 102, 88, 103, 51, 119, 78,
   113, 102, 100, 98, 110, 55, 53, 104, 105, 52, 45, 95, 55, 45, 66, 120,
   104, 77, 108, 106, 119, 52, 50, 72, 116, 52, 34, 125, 44, 34, 111, 114,
   105, 103, 105, 110, 34, 58, 34, 104, 116, 116, 112, 58, 47, 47, 101, 120,
   97, 109, 112, 108, 101, 46, 99, 111, 109, 34, 125
  ]

/-- X-coordinate of the example registration's public key. -/
def pxExample : Nat :=
  80265627976182050604743082379052696974310861123343952575144785931015208789372

/-- Y-coordinate of the example registration's public key. -/
def pyExample : Nat :=
  13015874539105161431913652139981776778497850597469779904183630812513404384985

/-- X-coordinate of the example attestation certificate's public key. -/
def qxExample : Nat :=
  63948368179719282567927653508463963687131594638117023117066633238710056899322

/-- Y-coordinate of the example attestation certificate's public key. -/
def qyExample : Nat :=
  28234599447469848548257851940151376661177674841916419253034266420053185716481

/-! ## Fixtures for concrete instantiations

Concrete oracle functions and inputs used to evaluate the embedded
operations at specific points. -/

/-- A JSON parse oracle that always fails. -/
def jsonParseErr : List Nat → Except Nat ClientData := fun _ => .error 0

/-- An ECDSA oracle that always rejects. -/
def ecdsaFalse : (Nat × Nat) → List Nat → Int → Int → Bool := fun _ _ _ _ => false

/-- An ECDSA oracle that always accepts. -/
def ecdsaTrue : (Nat × Nat) → List Nat → Int → Int → Bool := fun _ _ _ _ => true

/-- An x509 parse oracle that always fails. -/
def x509Err : List Nat → Except Nat Cert := fun _ => .error 0

/-- A chain-verification oracle that always succeeds. -/
def certVerifyOk : Cert → Option Nat := fun _ => none

/-- A certificate signature-check oracle that always succeeds. -/
def checkSigOk : Cert → List Nat → List Nat → Option GoErr := fun _ _ _ => none

/-- A small well-formed signature-data blob: presence byte 1, counter 7,
then the DER SEQUENCE of the integers 1 and 2. -/
def sigDataSmall : List Nat := [1, 0, 0, 0, 7, 48, 6, 2, 1, 1, 2, 1, 2]

/-- A small registration record. -/
def regSmall : Registration := ⟨[1, 2, 3], (0, 0), 0, none, []⟩

/-- A sign response carrying `sigDataSmall` for `regSmall`. -/
def respSmall : SignResponse :=
  ⟨encodeBase64 [1, 2, 3], encodeBase64 sigDataSmall, encodeBase64 [99]⟩

/-- A challenge whose nonce is `[5, 6]`, created at instant 0, for the
app id and trusted facet `[120]`. -/
def chalSmall : Challenge := ⟨[5, 6], 0, [120], [[120]], []⟩

/-- Client data that matches `chalSmall` except for its origin `[121]`,
which is not a trusted facet of `chalSmall`. -/
def cdBadOrigin : ClientData := ⟨[116], encodeBase64 [5, 6], [121], []⟩

/-- A JSON oracle returning `cdBadOrigin`. -/
def jsonParseBadOrigin : List Nat → Except Nat ClientData := fun _ => .ok cdBadOrigin

/-- Bytes of the string `navigator.id.finishEnrollment` (the enrolment
phase type tag). -/
def enrollmentTag : List Nat :=
  [110, 97, 118, 105, 103, 97, 116, 111, 114, 46, 105, 100, 46, 102, 105, 110,
   105, 115, 104, 69, 110, 114, 111, 108, 108, 109, 101, 110, 116]

/-- Bytes of the string `navigator.id.getAssertion` (the assertion phase
type tag). -/
def assertionTag : List Nat :=
  [110, 97, 118, 105, 103, 97, 116, 111, 114, 46, 105, 100, 46, 103, 101, 116,
   65, 115, 115, 101, 114, 116, 105, 111, 110]

/-- A challenge over the example app id that trusts the example origin. -/
def chalExample : Challenge := ⟨[1, 2, 3], 0, appIdExample, [appIdExample], []⟩

/-- Client data whose `typ` is the assertion tag (the wrong phase for
registration) but whose challenge and origin match `chalExample`. -/
def cdWrongTyp : ClientData := ⟨assertionTag, encodeBase64 [1, 2, 3], appIdExample, []⟩

/-- A JSON oracle returning `cdWrongTyp`. -/
def jsonParseWrongTyp : List Nat → Except Nat ClientData := fun _ => .ok cdWrongTyp

/-- The register response carrying the example registration data. -/
def regRespMsgExample : RegisterResponse :=
  ⟨encodeBase64 regRespExample, encodeBase64 [123]⟩

/-- Replace the `typ` field of whatever a JSON oracle parses. -/
def mapTyp (t : List Nat) (jsonParse : List Nat → Except Nat ClientData) :
    List Nat → Except Nat ClientData :=
  fun b => (jsonParse b).map (fun cd => ⟨t, cd.challenge, cd.origin, cd.cidPubKey⟩)

/-- A 69-byte registration blob: reserved byte `0x05`, the example's
valid public key, then key-handle length byte `0xFF` with only two bytes
left. -/
def bufKhTooLong : List Nat :=
  5 :: ((regRespExample.drop 1).take 65 ++ [255, 170, 187])

/-- Bytes of the string `http: slash slash localhost`. -/
def localhostBytes : List Nat :=
  [104, 116, 116, 112, 58, 47, 47, 108, 111, 99, 97, 108, 104, 111, 115, 116]

/-- A JSON-marshal oracle returning the empty byte string. -/
def jsonMarshalNil : List Nat → List Nat → List Nat := fun _ _ => []

/-- An authentication-signature oracle returning the empty signature. -/
def authSigNil : List Nat → List Nat → List Nat → Nat → List Nat := fun _ _ _ _ => []

/-- A registration-signature oracle returning the empty signature. -/
def regSigNil : List Nat → List Nat → List Nat → Nat × Nat → Nat → List Nat :=
  fun _ _ _ _ _ => []

/-- The register request the virtual-key scenario starts from. -/
def regReqLocalhost : RegisterRequestMessage := ⟨localhostBytes, [⟨[], []⟩], []⟩

/-- The virtual-key state right after registering against
`http://localhost`: produced by `HandleRegisterRequest` from the empty
key table, so it holds one key instance with handle `virtualkey-0` and
counter 0. -/
def vkRegistered : VirtualKey :=
  (VirtualKey.HandleRegisterRequest jsonMarshalNil 0 (0, 0) regSigNil 0
    ⟨0, [], []⟩ regReqLocalhost).2

/-- The sign request presenting the key handle registered above. -/
def signReqLocalhost : SignRequestMessage :=
  ⟨localhostBytes, [7, 8], [⟨[], encodeBase64 (virtualkeyPrefix ++ natDecimal 0)⟩]⟩

/-! ## Helper lemmas -/

/-- A byte ors with 1 to exactly 1 precisely when it is 0 or 1. -/
theorem lor_one_eq_one_iff (b : Nat) : b ||| 1 = 1 ↔ b ≤ 1 := by
  constructor
  · intro h
    have h2 : (b ||| 1) / 2 = 0 := by rw [h]
    rw [Nat.or_div_two] at h2
    simp only [Nat.reduceDiv, Nat.or_zero] at h2
    omega
  · intro h
    rcases Nat.le_one_iff_eq_zero_or_eq_one.mp h with rfl | rfl <;> decide

/-- Client-data verification never yields the counter error. -/
theorem verifyClientData_ne_cni (jsonParse : List Nat → Except Nat ClientData)
    (cd : List Nat) (ch : Challenge) :
    verifyClientData jsonParse cd ch ≠ some .counterNotIncreasing := by
  unfold verifyClientData verifyClientDataParsed
  cases jsonParse cd with
  | error e => simp
  | ok c =>
    dsimp only
    split
    · simp
    · split <;> simp

/-- Signature verification never yields the counter error. -/
theorem verifyAuthSignature_ne_cni (ecdsaV : (Nat × Nat) → List Nat → Int → Int → Bool)
    (ar : AuthResp) (pk : Nat × Nat) (appID clientData : List Nat) :
    verifyAuthSignature ecdsaV ar pk appID clientData ≠ some .counterNotIncreasing := by
  simp only [verifyAuthSignature]
  split <;> simp

/-! ## Claims -/

/-- C8.  Both `Register` and `Registration.Authenticate` reject with the
challenge-expired error whenever verification-time `now` is more than 5
minutes after the challenge's creation timestamp, whatever every other
argument and oracle is: the expiry comparison is the first check of both
entry points. -/
theorem u2f_C8 (jsonParse : List Nat → Except Nat ClientData)
    (x509P : List Nat → Except Nat Cert) (certVerify : Cert → Option Nat)
    (checkSig : Cert → List Nat → List Nat → Option GoErr)
    (ecdsaV : (Nat × Nat) → List Nat → Int → Int → Bool)
    (reg : Registration) (resp : SignResponse) (rresp : RegisterResponse)
    (c : Challenge) (counter : Nat) (now : Int)
    (h : now - c.timestamp > timeout) :
    Register jsonParse x509P certVerify checkSig rresp c now =
      .error .challengeExpired ∧
    Registration.Authenticate jsonParse ecdsaV reg resp c counter now =
      ⟨reg, c, 0, some .challengeExpired⟩ := by
  unfold Register Registration.Authenticate
  rw [if_pos h, if_pos h]
  exact ⟨rfl, rfl⟩

/-- Witness for C8 at a concrete expired instant. -/
theorem u2f_C8_witness :
    Register jsonParseErr x509Err certVerifyOk checkSigOk regRespMsgExample
      chalSmall 300000000001 = .error .challengeExpired ∧
    Registration.Authenticate jsonParseErr ecdsaFalse regSmall respSmall
      chalSmall 0 300000000001 = ⟨regSmall, chalSmall, 0, some .challengeExpired⟩ :=
  u2f_C8 jsonParseErr x509Err certVerifyOk checkSigOk ecdsaFalse regSmall
    respSmall regRespMsgExample chalSmall 0 300000000001 (by decide)

/-- C10.  `Registration.Authenticate` leaves its receiver registration
and the challenge unchanged on every path (the new counter is
communicated only through the returned value), and every error path
returns counter 0. -/
theorem u2f_C10 (jsonParse : List Nat → Except Nat ClientData)
    (ecdsaV : (Nat × Nat) → List Nat → Int → Int → Bool)
    (reg : Registration) (resp : SignResponse) (c : Challenge)
    (counter : Nat) (now : Int) :
    (Registration.Authenticate jsonParse ecdsaV reg resp c counter now).reg = reg ∧
    (Registration.Authenticate jsonParse ecdsaV reg resp c counter now).chal = c ∧
    ((Registration.Authenticate jsonParse ecdsaV reg resp c counter now).err.isSome →
      (Registration.Authenticate jsonParse ecdsaV reg resp c counter now).newCounter = 0) := by
  unfold Registration.Authenticate
  repeat' split
  all_goals first
  | exact ⟨rfl, rfl, fun _ => rfl⟩
  | exact ⟨rfl, rfl, fun h => nomatch h⟩

/-- Witness for C10 on a concrete failing authentication. -/
theorem u2f_C10_witness :
    (Registration.Authenticate jsonParseErr ecdsaFalse regSmall respSmall
      chalSmall 9 0).reg = regSmall ∧
    (Registration.Authenticate jsonParseErr ecdsaFalse regSmall respSmall
      chalSmall 9 0).chal = chalSmall ∧
    (Registration.Authenticate jsonParseErr ecdsaFalse regSmall respSmall
      chalSmall 9 0).newCounter = 0 := by
  obtain ⟨h1, h2, h3⟩ :=
    u2f_C10 jsonParseErr ecdsaFalse regSmall respSmall chalSmall 9 0
  exact ⟨h1, h2, h3 (by decide)⟩

/-- C1.  For every stored counter and every sign response whose
signature data parses, `Registration.Authenticate` fails with the
counter-not-increasing error exactly when the parsed counter is strictly
below the stored one (an equal counter is accepted); the conclusion holds
for every JSON-parse and every ECDSA oracle, because the check runs after
parsing and before client-data or signature verification. -/
theorem u2f_C1 (jsonParse : List Nat → Except Nat ClientData)
    (ecdsaV : (Nat × Nat) → List Nat → Int → Int → Bool)
    (reg : Registration) (resp : SignResponse) (c : Challenge)
    (counter : Nat) (now : Int) (sigData clientData : List Nat) (ar : AuthResp)
    (hexp : ¬ now - c.timestamp > timeout)
    (hkh : resp.keyHandle = encodeBase64 reg.keyHandle)
    (hsd : decodeBase64 resp.signatureData = .ok sigData)
    (hcd : decodeBase64 resp.clientData = .ok clientData)
    (har : parseSignResponse sigData = .ok ar) :
    (Registration.Authenticate jsonParse ecdsaV reg resp c counter now).err =
      some .counterNotIncreasing ↔ ar.counter < counter := by
  unfold Registration.Authenticate
  rw [if_neg hexp, if_neg (not_not_intro hkh)]
  simp only [hsd, hcd, har]
  by_cases hlt : ar.counter < counter
  · rw [if_pos hlt]
    simp [hlt]
  · rw [if_neg hlt]
    refine iff_of_false ?_ hlt
    cases hv : verifyClientData jsonParse clientData c with
    | some e =>
      dsimp only
      intro hcontra
      exact verifyClientData_ne_cni jsonParse clientData c
        (by rw [hv]; exact hcontra)
    | none =>
      cases hva : verifyAuthSignature ecdsaV ar reg.pubKey c.appID clientData with
      | some e =>
        dsimp only
        intro hcontra
        exact verifyAuthSignature_ne_cni ecdsaV ar reg.pubKey c.appID clientData
          (by rw [hva]; exact hcontra)
      | none =>
        dsimp only
        split <;> simp

/-- Witness for C1: the stored counter 9 exceeds the parsed counter 7,
so the concrete authentication fails with the counter error. -/
theorem u2f_C1_witness :
    (Registration.Authenticate jsonParseErr ecdsaFalse regSmall respSmall
      chalSmall 9 0).err = some .counterNotIncreasing := by
  have h := u2f_C1 jsonParseErr ecdsaFalse regSmall respSmall chalSmall 9 0
    sigDataSmall [99] ⟨true, 7, 1, 2, [1, 0, 0, 0, 7]⟩
    (by decide) (by decide) (by decide) (by decide) (by decide)
  exact h.mpr (by decide)

/-- When the parsed origin is not a trusted facet, client-data
verification fails with the untrusted-facet error. -/
theorem verifyClientData_untrusted (jsonParse : List Nat → Except Nat ClientData)
    (cdBytes : List Nat) (ch : Challenge) (cd : ClientData)
    (hjp : jsonParse cdBytes = .ok cd)
    (hmem : cd.origin ∉ ch.trustedFacets) :
    verifyClientData jsonParse cdBytes ch = some .untrustedFacet := by
  unfold verifyClientData
  rw [hjp]
  dsimp only
  unfold verifyClientDataParsed
  rw [if_pos]
  simp only [List.any_eq_true, beq_iff_eq, not_exists, not_and]
  intro facet hfacet heq
  exact hmem (heq ▸ hfacet)

/-- C7.  Whenever a response reaches the client-data check (the earlier
decoding, parsing, key-handle and counter checks pass) and its parsed
origin is not exactly a member of the challenge's trusted facets,
`Register` and `Registration.Authenticate` fail with the untrusted-facet
error — for every attestation, certificate-signature and ECDSA oracle,
so before any signature is checked. -/
theorem u2f_C7 (jsonParse : List Nat → Except Nat ClientData)
    (x509P : List Nat → Except Nat Cert) (certVerify : Cert → Option Nat)
    (checkSig : Cert → List Nat → List Nat → Option GoErr)
    (ecdsaV : (Nat × Nat) → List Nat → Int → Int → Bool)
    (reg : Registration) (resp : SignResponse) (rresp : RegisterResponse)
    (c : Challenge) (counter : Nat) (now : Int)
    (regData sigData cdBytesR cdBytesA : List Nat)
    (cdR cdA : ClientData) (r : Registration) (ar : AuthResp)
    (hexp : ¬ now - c.timestamp > timeout)
    (hrd : decodeBase64 rresp.registrationData = .ok regData)
    (hrc : decodeBase64 rresp.clientData = .ok cdBytesR)
    (hpr : parseRegistration x509P regData = .ok r)
    (hjpR : jsonParse cdBytesR = .ok cdR)
    (hmemR : cdR.origin ∉ c.trustedFacets)
    (hkh : resp.keyHandle = encodeBase64 reg.keyHandle)
    (hsd : decodeBase64 resp.signatureData = .ok sigData)
    (hac : decodeBase64 resp.clientData = .ok cdBytesA)
    (har : parseSignResponse sigData = .ok ar)
    (hcnt : ¬ ar.counter < counter)
    (hjpA : jsonParse cdBytesA = .ok cdA)
    (hmemA : cdA.origin ∉ c.trustedFacets) :
    Register jsonParse x509P certVerify checkSig rresp c now =
      .error .untrustedFacet ∧
    Registration.Authenticate jsonParse ecdsaV reg resp c counter now =
      ⟨reg, c, 0, some .untrustedFacet⟩ := by
  constructor
  · unfold Register
    rw [if_neg hexp]
    simp only [hrd, hrc, hpr,
      verifyClientData_untrusted jsonParse cdBytesR c cdR hjpR hmemR]
  · unfold Registration.Authenticate
    rw [if_neg hexp, if_neg (not_not_intro hkh)]
    simp only [hsd, hac, har]
    rw [if_neg hcnt]
    simp only [verifyClientData_untrusted jsonParse cdBytesA c cdA hjpA hmemA]

/-- Witness for C7 at a concrete response whose origin `[121]` is not in
the trusted set `[[120]]`. -/
theorem u2f_C7_witness :
    Register jsonParseBadOrigin x509ParseMinimal certVerifyOk checkSigOk
      regRespMsgExample chalSmall 0 = .error .untrustedFacet ∧
    Registration.Authenticate jsonParseBadOrigin ecdsaTrue regSmall respSmall
      chalSmall 0 0 = ⟨regSmall, chalSmall, 0, some .untrustedFacet⟩ := by
  set_option maxRecDepth 1000000 in
  exact u2f_C7 jsonParseBadOrigin x509ParseMinimal certVerifyOk checkSigOk
    ecdsaTrue regSmall respSmall regRespMsgExample chalSmall 0 0
    regRespExample sigDataSmall [123] [99] cdBadOrigin cdBadOrigin
    ⟨khExample, (pxExample, pyExample), 0,
      some ⟨certExample, qxExample, qyExample⟩, sigExample⟩
    ⟨true, 7, 1, 2, [1, 0, 0, 0, 7]⟩
    (by decide) (by decide) (by decide) (by decide) (by decide) (by decide)
    (by decide) (by decide) (by decide) (by decide) (by decide) (by decide)
    (by decide)

/-- The result of client-data verification does not depend on the parsed
`typ` field. -/
theorem verifyClientData_mapTyp (t : List Nat)
    (jsonParse : List Nat → Except Nat ClientData) (cdBytes : List Nat)
    (ch : Challenge) :
    verifyClientData (mapTyp t jsonParse) cdBytes ch =
      verifyClientData jsonParse cdBytes ch := by
  unfold verifyClientData mapTyp Except.map
  cases jsonParse cdBytes <;> rfl

/-- C3 counterexample: a registration whose ClientData `typ` is the
assertion tag (not `navigator.id.finishEnrollment`) is accepted by
`Register`, because `verifyClientData` never reads the `typ` field. -/
theorem u2f_C3_counterexample :
    cdWrongTyp.typ = assertionTag ∧ cdWrongTyp.typ ≠ enrollmentTag ∧
    Register jsonParseWrongTyp x509ParseMinimal certVerifyOk checkSigOk
      regRespMsgExample chalExample 0 =
      .ok ⟨khExample, (pxExample, pyExample), 0,
        some ⟨certExample, qxExample, qyExample⟩, sigExample⟩ := by
  refine ⟨rfl, by decide, ?_⟩
  set_option maxRecDepth 1000000 in decide

/-- C3 as amended: neither `Register` nor `Registration.Authenticate`
inspects the ClientData `typ` field — replacing the `typ` of whatever
the JSON parse yields never changes either result. -/
theorem u2f_C3 (t : List Nat) (jsonParse : List Nat → Except Nat ClientData)
    (x509P : List Nat → Except Nat Cert) (certVerify : Cert → Option Nat)
    (checkSig : Cert → List Nat → List Nat → Option GoErr)
    (ecdsaV : (Nat × Nat) → List Nat → Int → Int → Bool)
    (reg : Registration) (resp : SignResponse) (rresp : RegisterResponse)
    (c : Challenge) (counter : Nat) (now : Int) :
    Register (mapTyp t jsonParse) x509P certVerify checkSig rresp c now =
      Register jsonParse x509P certVerify checkSig rresp c now ∧
    Registration.Authenticate (mapTyp t jsonParse) ecdsaV reg resp c counter now =
      Registration.Authenticate jsonParse ecdsaV reg resp c counter now := by
  constructor
  · unfold Register
    simp only [verifyClientData_mapTyp]
  · unfold Registration.Authenticate
    simp only [verifyClientData_mapTyp]

/-- C2.  Full characterization of `parseSignResponse`: it succeeds
exactly when the input has at least 5 bytes, the first byte is 0 or 1
(any other value fails with the invalid-presence error), and the bytes
from index 5 decode as a DER (r, s) pair with nothing after it (trailing
bytes fail with the trailing-data error, short inputs with the too-short
error); on success the presence flag is set exactly when the first byte
is 1 and the counter is the big-endian value of bytes 1 through 4. -/
theorem u2f_C2 (sd : List Nat) :
    (sd.length < 5 → parseSignResponse sd = .error .tooShort) ∧
    (5 ≤ sd.length → 2 ≤ sd.getD 0 0 →
      parseSignResponse sd = .error .invalidPresenceByte) ∧
    ((∃ ar, parseSignResponse sd = .ok ar) ↔
      (5 ≤ sd.length ∧ sd.getD 0 0 ≤ 1 ∧
        ∃ rs, asn1UnmarshalEcdsaSig (sd.drop 5) = .ok (rs, []))) ∧
    (5 ≤ sd.length → sd.getD 0 0 ≤ 1 →
      ∀ rs rest, asn1UnmarshalEcdsaSig (sd.drop 5) = .ok (rs, rest) →
        rest ≠ [] → parseSignResponse sd = .error .trailingData) ∧
    (∀ ar, parseSignResponse sd = .ok ar →
      (ar.userPresenceVerified = true ↔ sd.getD 0 0 = 1) ∧
      ar.counter = sd.getD 1 0 * 16777216 + sd.getD 2 0 * 65536 +
        sd.getD 3 0 * 256 + sd.getD 4 0) := by
  refine ⟨?_, ?_, ⟨?_, ?_⟩, ?_, ?_⟩
  · intro h5
    unfold parseSignResponse
    rw [if_pos h5]
  · intro h5 hp
    unfold parseSignResponse
    rw [if_neg (by omega)]
    have : sd.getD 0 0 ||| 1 ≠ 1 := fun h => by
      have := (lor_one_eq_one_iff (sd.getD 0 0)).mp h
      omega
    rw [if_pos this]
  · rintro ⟨ar, har⟩
    simp only [parseSignResponse] at har
    by_cases h5 : sd.length < 5
    · rw [if_pos h5] at har
      exact absurd har (by simp)
    · rw [if_neg h5] at har
      by_cases hp : sd.getD 0 0 ||| 1 ≠ 1
      · rw [if_pos hp] at har
        exact absurd har (by simp)
      · rw [if_neg hp] at har
        refine ⟨by omega, (lor_one_eq_one_iff (sd.getD 0 0)).mp (not_ne_iff.mp hp), ?_⟩
        cases hasn : asn1UnmarshalEcdsaSig (sd.drop 5) with
        | error e => rw [hasn] at har; exact absurd har (by simp)
        | ok v =>
          obtain ⟨rs, rest⟩ := v
          rw [hasn] at har
          dsimp only at har
          by_cases hrest : rest ≠ []
          · rw [if_pos hrest] at har
            exact absurd har (by simp)
          · have hr : rest = [] := not_ne_iff.mp hrest
            subst hr
            exact ⟨rs, rfl⟩
  · rintro ⟨h5, hp, rs, hasn⟩
    refine ⟨⟨sd.getD 0 0 == 1,
      sd.getD 1 0 * 16777216 + sd.getD 2 0 * 65536 + sd.getD 3 0 * 256 + sd.getD 4 0,
      rs.1, rs.2, sd.take 5⟩, ?_⟩
    simp only [parseSignResponse]
    rw [if_neg (by omega), if_neg (not_ne_iff.mpr ((lor_one_eq_one_iff _).mpr hp)),
      hasn]
    simp
  · intro h5 hp rs rest hasn hrest
    simp only [parseSignResponse]
    rw [if_neg (by omega), if_neg (not_ne_iff.mpr ((lor_one_eq_one_iff _).mpr hp)),
      hasn]
    dsimp only
    rw [if_pos hrest]
  · intro ar har
    simp only [parseSignResponse] at har
    by_cases h5 : sd.length < 5
    · rw [if_pos h5] at har
      exact absurd har (by simp)
    · rw [if_neg h5] at har
      by_cases hp : sd.getD 0 0 ||| 1 ≠ 1
      · rw [if_pos hp] at har
        exact absurd har (by simp)
      · rw [if_neg hp] at har
        cases hasn : asn1UnmarshalEcdsaSig (sd.drop 5) with
        | error e => rw [hasn] at har; exact absurd har (by simp)
        | ok v =>
          obtain ⟨rs, rest⟩ := v
          rw [hasn] at har
          dsimp only at har
          by_cases hrest : rest ≠ []
          · rw [if_pos hrest] at har
            exact absurd har (by simp)
          · rw [if_neg hrest] at har
            obtain rfl := Except.ok.inj har
            exact ⟨by simp, rfl⟩

/-- Witness for C2 at the small concrete signature data. -/
theorem u2f_C2_witness :
    ((⟨true, 7, 1, 2, [1, 0, 0, 0, 7]⟩ : AuthResp).userPresenceVerified = true ↔
      sigDataSmall.getD 0 0 = 1) ∧
    (⟨true, 7, 1, 2, [1, 0, 0, 0, 7]⟩ : AuthResp).counter =
      sigDataSmall.getD 1 0 * 16777216 + sigDataSmall.getD 2 0 * 65536 +
        sigDataSmall.getD 3 0 * 256 + sigDataSmall.getD 4 0 :=
  (u2f_C2 sigDataSmall).2.2.2.2 ⟨true, 7, 1, 2, [1, 0, 0, 0, 7]⟩ (by decide)

/-- The rest returned by a raw ASN.1 unmarshal is the input dropped by
the consumed count. -/
theorem asn1UnmarshalRaw_rest (bs : List Nat) (k : Nat) (rest : List Nat)
    (h : asn1UnmarshalRaw bs = .ok (k, rest)) : rest = bs.drop k := by
  unfold asn1UnmarshalRaw at h
  by_cases h0 : bs.length = 0
  · rw [if_pos h0] at h
    exact absurd h (by simp)
  · rw [if_neg h0] at h
    cases htl : parseTagAndLength bs 0 with
    | error e => rw [htl] at h; exact absurd h (by simp)
    | ok v =>
      obtain ⟨t, off⟩ := v
      rw [htl] at h
      dsimp only at h
      by_cases hlen : bs.length < off + t.len
      · rw [if_pos hlen] at h
        exact absurd h (by simp)
      · rw [if_neg hlen] at h
        obtain ⟨hk, hrest⟩ := Prod.mk.injEq .. ▸ Except.ok.inj h
        rw [← hrest, ← hk]

/-- Every error of the base-128 integer parser is an ASN.1 error. -/
theorem parseBase128Aux_isAsn1 (bytes : List Nat) :
    ∀ fuel shifted off acc e,
      parseBase128Aux bytes fuel shifted off acc = .error e → ∃ c, e = .asn1Error c
  | 0, _shifted, _off, _acc, e, h => ⟨6, (Except.error.inj h).symm⟩
  | fuel + 1, shifted, off, acc, e, h => by
    unfold parseBase128Aux at h
    by_cases h1 : off < bytes.length
    · rw [if_pos h1] at h
      by_cases h2 : shifted = 5
      · rw [if_pos h2] at h
        exact ⟨6, (Except.error.inj h).symm⟩
      · rw [if_neg h2] at h
        dsimp only at h
        by_cases h3 : shifted = 0 ∧ bytes.getD off 0 = 128
        · rw [if_pos h3] at h
          exact ⟨7, (Except.error.inj h).symm⟩
        · rw [if_neg h3] at h
          by_cases h4 : bytes.getD off 0 < 128
          · rw [if_pos h4] at h
            by_cases h5 : 2147483647 < acc * 128 + bytes.getD off 0 % 128
            · rw [if_pos h5] at h
              exact ⟨6, (Except.error.inj h).symm⟩
            · rw [if_neg h5] at h
              exact absurd h (by simp)
          · rw [if_neg h4] at h
            exact parseBase128Aux_isAsn1 bytes fuel (shifted + 1) (off + 1)
              (acc * 128 + bytes.getD off 0 % 128) e h
    · rw [if_neg h1] at h
      exact ⟨8, (Except.error.inj h).symm⟩

/-- Every error of the long-form length parser is an ASN.1 error. -/
theorem parseLengthBytes_isAsn1 (bytes : List Nat) :
    ∀ nb off acc e,
      parseLengthBytes bytes nb off acc = .error e → ∃ c, e = .asn1Error c
  | 0, _off, _acc, _e, h => absurd h (by simp [parseLengthBytes])
  | nb + 1, off, acc, e, h => by
    unfold parseLengthBytes at h
    by_cases h1 : off < bytes.length
    · rw [if_pos h1] at h
      dsimp only at h
      by_cases h2 : 8388608 ≤ acc
      · rw [if_pos h2] at h
        exact ⟨3, (Except.error.inj h).symm⟩
      · rw [if_neg h2] at h
        by_cases h3 : acc * 256 + bytes.getD off 0 = 0
        · rw [if_pos h3] at h
          exact ⟨4, (Except.error.inj h).symm⟩
        · rw [if_neg h3] at h
          exact parseLengthBytes_isAsn1 bytes nb (off + 1)
            (acc * 256 + bytes.getD off 0) e h
    · rw [if_neg h1] at h
      exact ⟨1, (Except.error.inj h).symm⟩

/-- Every error of the tag-and-length parser is an ASN.1 error. -/
theorem parseTagAndLength_isAsn1 (bytes : List Nat) (initOffset : Nat) (e : GoErr)
    (h : parseTagAndLength bytes initOffset = .error e) : ∃ c, e = .asn1Error c := by
  unfold parseTagAndLength at h
  by_cases h1 : initOffset < bytes.length
  · rw [if_pos h1] at h
    dsimp only at h
    have tail : ∀ tagv offv : Nat,
        (if offv < bytes.length then
          (if bytes.getD offv 0 < 128 then
            (.ok (⟨bytes.getD initOffset 0 / 64, tagv,
              decide (bytes.getD initOffset 0 / 32 % 2 = 1), bytes.getD offv 0⟩,
              offv + 1) : Except GoErr (TagLen × Nat))
          else if bytes.getD offv 0 % 128 = 0 then .error (.asn1Error 2)
          else
            match parseLengthBytes bytes (bytes.getD offv 0 % 128) (offv + 1) 0 with
            | .error e2 => .error e2
            | .ok (len, off2) =>
              if len < 128 then .error (.asn1Error 5)
              else .ok (⟨bytes.getD initOffset 0 / 64, tagv,
                decide (bytes.getD initOffset 0 / 32 % 2 = 1), len⟩, off2))
        else .error (.asn1Error 1)) = .error e → ∃ c, e = .asn1Error c := by
      intro tagv offv htail
      by_cases h4 : offv < bytes.length
      · rw [if_pos h4] at htail
        by_cases h5 : bytes.getD offv 0 < 128
        · rw [if_pos h5] at htail
          exact absurd htail (by simp)
        · rw [if_neg h5] at htail
          by_cases h6 : bytes.getD offv 0 % 128 = 0
          · rw [if_pos h6] at htail
            exact ⟨2, (Except.error.inj htail).symm⟩
          · rw [if_neg h6] at htail
            cases hlb : parseLengthBytes bytes (bytes.getD offv 0 % 128) (offv + 1) 0 with
            | error e3 =>
              rw [hlb] at htail
              dsimp only at htail
              obtain ⟨c, rfl⟩ := parseLengthBytes_isAsn1 bytes _ _ _ e3 hlb
              exact ⟨c, (Except.error.inj htail).symm⟩
            | ok v2 =>
              obtain ⟨lenv, off2⟩ := v2
              rw [hlb] at htail
              dsimp only at htail
              by_cases h7 : lenv < 128
              · rw [if_pos h7] at htail
                exact ⟨5, (Except.error.inj htail).symm⟩
              · rw [if_neg h7] at htail
                exact absurd htail (by simp)
      · rw [if_neg h4] at htail
        exact ⟨1, (Except.error.inj htail).symm⟩
    by_cases h2 : bytes.getD initOffset 0 % 32 = 31
    · rw [if_pos h2] at h
      cases hb : parseBase128Aux bytes 6 0 (initOffset + 1) 0 with
      | error e2 =>
        rw [hb] at h
        dsimp only at h
        obtain ⟨c, rfl⟩ := parseBase128Aux_isAsn1 bytes 6 0 (initOffset + 1) 0 e2 hb
        exact ⟨c, (Except.error.inj h).symm⟩
      | ok v =>
        obtain ⟨tv, offv⟩ := v
        rw [hb] at h
        dsimp only at h
        by_cases h3 : tv < 31
        · rw [if_pos h3] at h
          dsimp only at h
          exact ⟨9, (Except.error.inj h).symm⟩
        · rw [if_neg h3] at h
          dsimp only at h
          exact tail tv offv h
    · rw [if_neg h2] at h
      dsimp only at h
      exact tail (bytes.getD initOffset 0 % 32) (initOffset + 1) h
  · rw [if_neg h1] at h
    exact ⟨1, (Except.error.inj h).symm⟩

/-- Every error of the raw ASN.1 unmarshal is an ASN.1 error; in
particular a truncated or malformed certificate never yields the
too-short error. -/
theorem asn1UnmarshalRaw_isAsn1 (bs : List Nat) (e : GoErr)
    (h : asn1UnmarshalRaw bs = .error e) : ∃ c, e = .asn1Error c := by
  unfold asn1UnmarshalRaw at h
  by_cases h0 : bs.length = 0
  · rw [if_pos h0] at h
    exact ⟨12, (Except.error.inj h).symm⟩
  · rw [if_neg h0] at h
    cases htl : parseTagAndLength bs 0 with
    | error e2 =>
      rw [htl] at h
      dsimp only at h
      obtain ⟨c, rfl⟩ := parseTagAndLength_isAsn1 bs 0 e2 htl
      exact ⟨c, (Except.error.inj h).symm⟩
    | ok v =>
      obtain ⟨t, off⟩ := v
      rw [htl] at h
      dsimp only at h
      by_cases hl : bs.length < off + t.len
      · rw [if_pos hl] at h
        exact ⟨11, (Except.error.inj h).symm⟩
      · rw [if_neg hl] at h
        exact absurd h (by simp)

/-- C5 counterexample: a 69-byte input with the valid example public key
and key-handle length byte 255 (exceeding the 2 remaining bytes) fails
with the invalid-key-handle error, not with the too-short error the
claim requires for a later-step shortage. -/
theorem u2f_C5_counterexample :
    69 ≤ bufKhTooLong.length ∧ bufKhTooLong.getD 0 0 = 5 ∧
    (p256Unmarshal ((bufKhTooLong.drop 1).take 65)).isSome = true ∧
    parseRegistration x509ParseMinimal bufKhTooLong = .error .invalidKeyHandle ∧
    GoErr.invalidKeyHandle ≠ GoErr.tooShort := by
  set_option maxRecDepth 1000000 in decide

/-- C5 as amended: `parseRegistration` fails with the too-short error
exactly for inputs below 69 bytes (checked first, and arising nowhere
else); a non-0x05 first byte fails with the reserved-byte error; an
invalid 65-byte public key blob fails with the invalid-public-key error;
a key-handle length exceeding the remaining bytes fails with the
invalid-key-handle error (not too-short); a certificate blob the raw
ASN.1 parse rejects — in particular a truncated one — fails with that
ASN.1 error, never with too-short; and on success the certificate's
extent is the byte count consumed by the raw ASN.1 parse, with exactly
the remaining bytes returned as the signature. -/
theorem u2f_C5 (x509P : List Nat → Except Nat Cert) (buf : List Nat) :
    (parseRegistration x509P buf = .error .tooShort ↔ buf.length < 69) ∧
    (69 ≤ buf.length → buf.getD 0 0 ≠ 5 →
      parseRegistration x509P buf = .error .invalidReservedByte) ∧
    (69 ≤ buf.length → buf.getD 0 0 = 5 →
      p256Unmarshal ((buf.drop 1).take 65) = none →
      parseRegistration x509P buf = .error .invalidPublicKey) ∧
    (69 ≤ buf.length → buf.getD 0 0 = 5 →
      ∀ pub, p256Unmarshal ((buf.drop 1).take 65) = some pub →
      (((buf.drop 1).drop 65).drop 1).length < ((buf.drop 1).drop 65).getD 0 0 →
      parseRegistration x509P buf = .error .invalidKeyHandle) ∧
    (69 ≤ buf.length → buf.getD 0 0 = 5 →
      ∀ pub, p256Unmarshal ((buf.drop 1).take 65) = some pub →
      ¬ (((buf.drop 1).drop 65).drop 1).length < ((buf.drop 1).drop 65).getD 0 0 →
      ∀ e, asn1UnmarshalRaw ((((buf.drop 1).drop 65).drop 1).drop
        (((buf.drop 1).drop 65).getD 0 0)) = .error e →
      parseRegistration x509P buf = .error e ∧ ∃ c, e = .asn1Error c) ∧
    (∀ r, parseRegistration x509P buf = .ok r →
      ∃ consumed,
        asn1UnmarshalRaw ((((buf.drop 1).drop 65).drop 1).drop
          (((buf.drop 1).drop 65).getD 0 0)) = .ok (consumed, r.signature) ∧
        r.signature = ((((buf.drop 1).drop 65).drop 1).drop
          (((buf.drop 1).drop 65).getD 0 0)).drop consumed) := by
  refine ⟨⟨?_, ?_⟩, ?_, ?_, ?_, ?_, ?_⟩
  · intro h
    by_contra h69
    unfold parseRegistration at h
    rw [if_neg h69] at h
    by_cases hres : buf.getD 0 0 ≠ 5
    · rw [if_pos hres] at h
      exact absurd h (by simp)
    · rw [if_neg hres] at h
      dsimp only at h
      cases hpub : p256Unmarshal ((buf.drop 1).take 65) with
      | none => rw [hpub] at h; exact absurd h (by simp)
      | some pub =>
        rw [hpub] at h
        dsimp only at h
        by_cases hkh : (((buf.drop 1).drop 65).drop 1).length <
            ((buf.drop 1).drop 65).getD 0 0
        · rw [if_pos hkh] at h
          exact absurd h (by simp)
        · rw [if_neg hkh] at h
          cases hasn : asn1UnmarshalRaw ((((buf.drop 1).drop 65).drop 1).drop
              (((buf.drop 1).drop 65).getD 0 0)) with
          | error e =>
            rw [hasn] at h
            dsimp only at h
            obtain ⟨c, rfl⟩ := asn1UnmarshalRaw_isAsn1 _ _ hasn
            exact absurd h (by simp)
          | ok v =>
            obtain ⟨consumed, sigRest⟩ := v
            rw [hasn] at h
            dsimp only at h
            cases hx : x509P (((((buf.drop 1).drop 65).drop 1).drop
                (((buf.drop 1).drop 65).getD 0 0)).take consumed) with
            | error e2 => rw [hx] at h; exact absurd h (by simp)
            | ok cert => rw [hx] at h; exact absurd h (by simp)
  · intro h69
    unfold parseRegistration
    rw [if_pos h69]
  · intro h69 hres
    unfold parseRegistration
    rw [if_neg (by omega), if_pos hres]
  · intro h69 hres hpub
    unfold parseRegistration
    rw [if_neg (by omega), if_neg (not_not_intro hres)]
    dsimp only
    rw [hpub]
  · intro h69 hres pub hpub hkh
    unfold parseRegistration
    rw [if_neg (by omega), if_neg (not_not_intro hres)]
    dsimp only
    rw [hpub]
    dsimp only
    rw [if_pos hkh]
  · intro h69 hres pub hpub hkh e hasn
    refine ⟨?_, asn1UnmarshalRaw_isAsn1 _ _ hasn⟩
    unfold parseRegistration
    rw [if_neg (by omega), if_neg (not_not_intro hres)]
    dsimp only
    rw [hpub]
    dsimp only
    rw [if_neg hkh, hasn]
  · intro r hr
    unfold parseRegistration at hr
    by_cases h69 : buf.length < 69
    · rw [if_pos h69] at hr
      exact absurd hr (by simp)
    · rw [if_neg h69] at hr
      by_cases hres : buf.getD 0 0 ≠ 5
      · rw [if_pos hres] at hr
        exact absurd hr (by simp)
      · rw [if_neg hres] at hr
        dsimp only at hr
        cases hpub : p256Unmarshal ((buf.drop 1).take 65) with
        | none => rw [hpub] at hr; exact absurd hr (by simp)
        | some pub =>
          rw [hpub] at hr
          dsimp only at hr
          by_cases hkh : (((buf.drop 1).drop 65).drop 1).length <
              ((buf.drop 1).drop 65).getD 0 0
          · rw [if_pos hkh] at hr
            exact absurd hr (by simp)
          · rw [if_neg hkh] at hr
            cases hasn : asn1UnmarshalRaw ((((buf.drop 1).drop 65).drop 1).drop
                (((buf.drop 1).drop 65).getD 0 0)) with
            | error e => rw [hasn] at hr; exact absurd hr (by simp)
            | ok v =>
              obtain ⟨consumed, sigRest⟩ := v
              rw [hasn] at hr
              dsimp only at hr
              cases hx : x509P (((((buf.drop 1).drop 65).drop 1).drop
                  (((buf.drop 1).drop 65).getD 0 0)).take consumed) with
              | error e => rw [hx] at hr; exact absurd hr (by simp)
              | ok cert =>
                rw [hx] at hr
                dsimp only at hr
                obtain rfl := Except.ok.inj hr
                exact ⟨consumed, rfl, asn1UnmarshalRaw_rest _ _ _ hasn⟩

/-- Witness for C5: the clauses applied to a concrete short input and to
the example registration blob. -/
theorem u2f_C5_witness :
    parseRegistration x509ParseMinimal [5, 4] = .error .tooShort ∧
    (parseRegistration x509ParseMinimal
      (5 :: ((regRespExample.drop 1).take 65 ++ [2, 0, 0])) =
        .error (.asn1Error 12) ∧
      ∃ c, GoErr.asn1Error 12 = GoErr.asn1Error c) ∧
    (∃ consumed,
      asn1UnmarshalRaw ((((regRespExample.drop 1).drop 65).drop 1).drop
        (((regRespExample.drop 1).drop 65).getD 0 0)) = .ok (consumed, sigExample) ∧
      sigExample = ((((regRespExample.drop 1).drop 65).drop 1).drop
        (((regRespExample.drop 1).drop 65).getD 0 0)).drop consumed) := by
  refine ⟨?_, ?_, ?_⟩
  · exact (u2f_C5 x509ParseMinimal [5, 4]).1.mpr (by decide)
  · exact (u2f_C5 x509ParseMinimal
      (5 :: ((regRespExample.drop 1).take 65 ++ [2, 0, 0]))).2.2.2.2.1
      (by decide) (by decide) (pxExample, pyExample)
      (by set_option maxRecDepth 1000000 in decide) (by decide)
      (.asn1Error 12) (by decide)
  · have h := (u2f_C5 x509ParseMinimal regRespExample).2.2.2.2.2
      ⟨khExample, (pxExample, pyExample), 0,
        some ⟨certExample, qxExample, qyExample⟩, sigExample⟩
      (by set_option maxRecDepth 1000000 in decide)
    exact h

/-- C4.  On the fixed FIDO U2F raw-message example, `parseRegistration`
returns exactly the expected key handle, attestation certificate DER and
signature DER, and the registration signature verifies against the
example app id and ClientData JSON using SHA-256 and P-256 ECDSA with
the certificate's embedded public key. -/
theorem u2f_C4 :
    parseRegistration x509ParseMinimal regRespExample =
      .ok ⟨khExample, (pxExample, pyExample), 0,
        some ⟨certExample, qxExample, qyExample⟩, sigExample⟩ ∧
    verifyRegistrationSignature certCheckSignatureECDSA
      ⟨khExample, (pxExample, pyExample), 0,
        some ⟨certExample, qxExample, qyExample⟩, sigExample⟩
      appIdExample clientDataExample = none := by
  constructor
  · set_option maxRecDepth 1000000 in decide
  · set_option maxRecDepth 1000000 in decide

/-- C9 (code bug).  Starting from the state right after registering
against `http://localhost` (one key instance, stored counter 0), the
virtual key's `HandleAuthenticationRequest` returns signature data with
counter 1 — and returns the key table unchanged, because the Go source
increments the counter of the range-loop copy that
`getKeyByAppIDAndKeyHandle` returned.  A second authentication from the
returned state therefore produces the identical response: its counter is
again 1, not strictly greater than the first. -/
theorem u2f_C9 :
    vkRegistered.keys.map (fun k => k.counter) = [0] ∧
    VirtualKey.HandleAuthenticationRequest jsonMarshalNil authSigNil vkRegistered
      signReqLocalhost =
      (some ⟨encodeBase64 (virtualkeyPrefix ++ natDecimal 0),
        encodeBase64 [1, 0, 0, 0, 1], encodeBase64 []⟩, vkRegistered) ∧
    (VirtualKey.HandleAuthenticationRequest jsonMarshalNil authSigNil
      (VirtualKey.HandleAuthenticationRequest jsonMarshalNil authSigNil vkRegistered
        signReqLocalhost).2 signReqLocalhost).1 =
    (VirtualKey.HandleAuthenticationRequest jsonMarshalNil authSigNil vkRegistered
      signReqLocalhost).1 := by
  refine ⟨by decide, by decide, by decide⟩

/-! ## Lemmas about the base64url codec, leading to claim C6 -/

/-- Decoding inverts the character map on 6-bit values. -/
theorem decChar_encChar : ∀ d, d < 64 → decChar (encChar d) = some d := by decide

/-- Alphabet characters are never the padding character. -/
theorem encChar_ne_pad : ∀ d, d < 64 → encChar d ≠ 61 := by decide

/-- Alphabet characters are never newline characters. -/
theorem encChar_ne_nl : ∀ d, d < 64 → ¬ (encChar d = 10 ∨ encChar d = 13) := by decide

/-- Every character the encoder emits is padding or an alphabet
character for some 6-bit value. -/
theorem b64Encode_mem : ∀ b : List Nat, ∀ c ∈ b64Encode b,
    c = b64Pad ∨ ∃ d, d < 64 ∧ c = encChar d
  | [] => by simp [b64Encode]
  | [b0] => by
    intro c hc
    simp only [b64Encode, List.mem_cons, List.not_mem_nil, or_false] at hc
    rcases hc with rfl | rfl | rfl | rfl
    · exact .inr ⟨_, Nat.mod_lt _ (by norm_num), rfl⟩
    · exact .inr ⟨_, Nat.mod_lt _ (by norm_num), rfl⟩
    · exact .inl rfl
    · exact .inl rfl
  | [b0, b1] => by
    intro c hc
    simp only [b64Encode, List.mem_cons, List.not_mem_nil, or_false] at hc
    rcases hc with rfl | rfl | rfl | rfl
    · exact .inr ⟨_, Nat.mod_lt _ (by norm_num), rfl⟩
    · exact .inr ⟨_, Nat.mod_lt _ (by norm_num), rfl⟩
    · exact .inr ⟨_, Nat.mod_lt _ (by norm_num), rfl⟩
    · exact .inl rfl
  | b0 :: b1 :: b2 :: (rest : List Nat) => by
    intro c hc
    simp only [b64Encode, List.mem_cons] at hc
    rcases hc with rfl | rfl | rfl | rfl | hc
    · exact .inr ⟨_, Nat.mod_lt _ (by norm_num), rfl⟩
    · exact .inr ⟨_, Nat.mod_lt _ (by norm_num), rfl⟩
    · exact .inr ⟨_, Nat.mod_lt _ (by norm_num), rfl⟩
    · exact .inr ⟨_, Nat.mod_lt _ (by norm_num), rfl⟩
    · exact b64Encode_mem rest c hc

/-- Encoder output contains no newline, so the decoder's newline
stripping is the identity on it. -/
theorem stripNewlines_b64Encode (b : List Nat) :
    stripNewlines (b64Encode b) = b64Encode b := by
  unfold stripNewlines
  rw [List.filter_eq_self]
  intro c hc
  rcases b64Encode_mem b c hc with rfl | ⟨d, hd, rfl⟩
  · decide
  · simpa using encChar_ne_nl d hd

/-- Dropping a satisfied prefix distributes over append when something
of the first part survives. -/
theorem dropWhile_append_ne_nil (p : Nat → Bool) :
    ∀ a b : List Nat, a.dropWhile p ≠ [] →
      (a ++ b).dropWhile p = a.dropWhile p ++ b
  | [], _, h => absurd rfl h
  | x :: xs, b, h => by
    by_cases hx : p x
    · rw [List.cons_append, List.dropWhile_cons_of_pos hx,
        List.dropWhile_cons_of_pos hx]
      rw [List.dropWhile_cons_of_pos hx] at h
      exact dropWhile_append_ne_nil p xs b h
    · rw [List.cons_append, List.dropWhile_cons_of_neg hx,
        List.dropWhile_cons_of_neg hx, List.cons_append]

/-- Right padding trim distributes over append when the right part does
not trim away completely. -/
theorem trimRightPad_append (xs ys : List Nat) (h : trimRightPad ys ≠ []) :
    trimRightPad (xs ++ ys) = xs ++ trimRightPad ys := by
  unfold trimRightPad at h ⊢
  rw [List.reverse_append,
    dropWhile_append_ne_nil _ ys.reverse xs.reverse (fun hnil => h (by rw [hnil]; rfl)),
    List.reverse_append, List.reverse_reverse]

/-- Trimming yields the empty string only when every character is
padding. -/
theorem trimRightPad_eq_nil_iff (s : List Nat) :
    trimRightPad s = [] ↔ ∀ c ∈ s, c = b64Pad := by
  unfold trimRightPad
  rw [List.reverse_eq_nil_iff, List.dropWhile_eq_nil_iff]
  constructor
  · intro h c hc
    simpa using h c (List.mem_reverse.mpr hc)
  · intro h c hc
    simpa using h c (List.mem_reverse.mp hc)

/-- The encoding of a nonempty byte string starts with an alphabet
character. -/
theorem b64Encode_head : ∀ (x : Nat) (xs : List Nat),
    ∃ d, d < 64 ∧ ∃ tail, b64Encode (x :: xs) = encChar d :: tail
  | x, [] => ⟨_, Nat.mod_lt _ (by norm_num), _, rfl⟩
  | x, [y] => ⟨_, Nat.mod_lt _ (by norm_num), _, rfl⟩
  | x, y :: z :: rest => ⟨_, Nat.mod_lt _ (by norm_num), _, rfl⟩

/-- The encoding of a nonempty byte string survives padding trim. -/
theorem trimRightPad_b64Encode_ne_nil (x : Nat) (xs : List Nat) :
    trimRightPad (b64Encode (x :: xs)) ≠ [] := by
  intro hnil
  obtain ⟨d, hd, tail, henc⟩ := b64Encode_head x xs
  have := (trimRightPad_eq_nil_iff _).mp hnil (encChar d) (by rw [henc]; exact .head _)
  exact encChar_ne_pad d hd this

/-- The padding loop distributes over a prefix whose length is a
multiple of four. -/
theorem padLoop_append : ∀ (fuel : Nat) (xs t : List Nat) (i : Nat),
    xs.length % 4 = 0 → padLoop fuel (xs ++ t) i = xs ++ padLoop fuel t i
  | 0, xs, t, i, _ => rfl
  | fuel + 1, xs, t, i, h => by
    unfold padLoop
    have hlen : (xs ++ t).length % 4 = t.length % 4 := by
      rw [List.length_append, Nat.add_mod, h]
      simp [Nat.mod_mod_of_dvd]
    rw [hlen]
    by_cases hc : i < t.length % 4
    · rw [if_pos hc, if_pos hc, List.append_assoc]
      exact padLoop_append fuel xs (t ++ [b64Pad]) (i + 1) h
    · rw [if_neg hc, if_neg hc]

/-- The padding loop on a two-character string appends two pads (the
conditions only inspect lengths, so this is definitional). -/
theorem padLoop_two (x y : Nat) : padLoop 4 [x, y] 0 = [x, y, b64Pad, b64Pad] := by
  simp [padLoop, List.length, b64Pad]

/-- The padding loop on a three-character string appends one pad. -/
theorem padLoop_three (x y z : Nat) : padLoop 4 [x, y, z] 0 = [x, y, z, b64Pad] := by
  simp [padLoop, List.length, b64Pad]

/-- The padding loop on a four-character string appends nothing. -/
theorem padLoop_four (x y z w : Nat) : padLoop 4 [x, y, z, w] 0 = [x, y, z, w] := by
  simp [padLoop, List.length]

/-- Trimming a quantum that ends in two pads. -/
theorem trimRightPad_two (a b : Nat) (hb : b ≠ 61) :
    trimRightPad [a, b, b64Pad, b64Pad] = [a, b] := by
  show (List.dropWhile (fun c => c = b64Pad) [b64Pad, b64Pad, b, a]).reverse = [a, b]
  rw [List.dropWhile_cons_of_pos (by decide), List.dropWhile_cons_of_pos (by decide),
    List.dropWhile_cons_of_neg (by simpa [b64Pad] using hb)]
  rfl

/-- Trimming a quantum that ends in one pad. -/
theorem trimRightPad_three (a b c : Nat) (hc : c ≠ 61) :
    trimRightPad [a, b, c, b64Pad] = [a, b, c] := by
  show (List.dropWhile (fun x => x = b64Pad) [b64Pad, c, b, a]).reverse = [a, b, c]
  rw [List.dropWhile_cons_of_pos (by decide),
    List.dropWhile_cons_of_neg (by simpa [b64Pad] using hc)]
  rfl

/-- Trimming a full quantum without pads. -/
theorem trimRightPad_four (a b c d : Nat) (hd : d ≠ 61) :
    trimRightPad [a, b, c, d] = [a, b, c, d] := by
  show (List.dropWhile (fun x => x = b64Pad) [d, c, b, a]).reverse = [a, b, c, d]
  rw [List.dropWhile_cons_of_neg (by simpa [b64Pad] using hd)]
  rfl

/-- Re-padding the trimmed encoding restores the padded encoding: the
u2f decode wrapper undoes exactly what the encode wrapper stripped. -/
theorem padLoop_trimRightPad_b64Encode : ∀ b : List Nat,
    padLoop 4 (trimRightPad (b64Encode b)) 0 = b64Encode b
  | [] => by decide
  | [b0] => by
    have h1 : encChar (b0 * 65536 / 4096 % 64) ≠ 61 :=
      encChar_ne_pad _ (Nat.mod_lt _ (by norm_num))
    show padLoop 4 (trimRightPad
      [encChar (b0 * 65536 / 262144 % 64), encChar (b0 * 65536 / 4096 % 64),
       b64Pad, b64Pad]) 0 =
      [encChar (b0 * 65536 / 262144 % 64), encChar (b0 * 65536 / 4096 % 64),
       b64Pad, b64Pad]
    rw [trimRightPad_two _ _ h1, padLoop_two]
  | [b0, b1] => by
    have h1 : encChar ((b0 * 65536 + b1 * 256) / 64 % 64) ≠ 61 :=
      encChar_ne_pad _ (Nat.mod_lt _ (by norm_num))
    show padLoop 4 (trimRightPad
      [encChar ((b0 * 65536 + b1 * 256) / 262144 % 64),
       encChar ((b0 * 65536 + b1 * 256) / 4096 % 64),
       encChar ((b0 * 65536 + b1 * 256) / 64 % 64), b64Pad]) 0 =
      [encChar ((b0 * 65536 + b1 * 256) / 262144 % 64),
       encChar ((b0 * 65536 + b1 * 256) / 4096 % 64),
       encChar ((b0 * 65536 + b1 * 256) / 64 % 64), b64Pad]
    rw [trimRightPad_three _ _ _ h1, padLoop_three]
  | b0 :: b1 :: b2 :: (rest : List Nat) => by
    cases rest with
    | nil =>
      have h3 : encChar ((b0 * 65536 + b1 * 256 + b2) % 64) ≠ 61 :=
        encChar_ne_pad _ (Nat.mod_lt _ (by norm_num))
      show padLoop 4 (trimRightPad
        [encChar ((b0 * 65536 + b1 * 256 + b2) / 262144 % 64),
         encChar ((b0 * 65536 + b1 * 256 + b2) / 4096 % 64),
         encChar ((b0 * 65536 + b1 * 256 + b2) / 64 % 64),
         encChar ((b0 * 65536 + b1 * 256 + b2) % 64)]) 0 =
        [encChar ((b0 * 65536 + b1 * 256 + b2) / 262144 % 64),
         encChar ((b0 * 65536 + b1 * 256 + b2) / 4096 % 64),
         encChar ((b0 * 65536 + b1 * 256 + b2) / 64 % 64),
         encChar ((b0 * 65536 + b1 * 256 + b2) % 64)]
      rw [trimRightPad_four _ _ _ _ h3, padLoop_four]
    | cons r rs =>
      show padLoop 4 (trimRightPad
        ([encChar ((b0 * 65536 + b1 * 256 + b2) / 262144 % 64),
          encChar ((b0 * 65536 + b1 * 256 + b2) / 4096 % 64),
          encChar ((b0 * 65536 + b1 * 256 + b2) / 64 % 64),
          encChar ((b0 * 65536 + b1 * 256 + b2) % 64)] ++ b64Encode (r :: rs))) 0 =
        [encChar ((b0 * 65536 + b1 * 256 + b2) / 262144 % 64),
         encChar ((b0 * 65536 + b1 * 256 + b2) / 4096 % 64),
         encChar ((b0 * 65536 + b1 * 256 + b2) / 64 % 64),
         encChar ((b0 * 65536 + b1 * 256 + b2) % 64)] ++ b64Encode (r :: rs)
      rw [trimRightPad_append _ _ (trimRightPad_b64Encode_ne_nil r rs),
        padLoop_append 4 _ _ 0 (by simp [List.length]),
        padLoop_trimRightPad_b64Encode (r :: rs)]

/-- Decoding the full padded encoding returns the original bytes. -/
theorem b64DecodeQuanta_b64Encode : ∀ b : List Nat, (∀ x ∈ b, x < 256) →
    b64DecodeQuanta (b64Encode b) = .ok b
  | [], _ => rfl
  | [b0], h => by
    have hb0 : b0 < 256 := h b0 (by simp)
    simp only [b64Encode, b64DecodeQuanta,
      decChar_encChar _ (Nat.mod_lt _ (by norm_num))]
    refine congrArg Except.ok ?_
    refine List.cons_eq_cons.mpr ⟨?_, rfl⟩
    omega
  | [b0, b1], h => by
    have hb0 : b0 < 256 := h b0 (by simp)
    have hb1 : b1 < 256 := h b1 (by simp)
    have hne : encChar ((b0 * 65536 + b1 * 256) / 64 % 64) ≠ b64Pad :=
      encChar_ne_pad _ (Nat.mod_lt _ (by norm_num))
    simp only [b64Encode, b64DecodeQuanta,
      decChar_encChar _ (Nat.mod_lt _ (by norm_num))]
    rw [if_neg hne]
    refine congrArg Except.ok ?_
    refine List.cons_eq_cons.mpr ⟨by omega, List.cons_eq_cons.mpr ⟨by omega, rfl⟩⟩
  | b0 :: b1 :: b2 :: (rest : List Nat), h => by
    have hb0 : b0 < 256 := h b0 (by simp)
    have hb1 : b1 < 256 := h b1 (by simp)
    have hb2 : b2 < 256 := h b2 (by simp)
    have hrest : ∀ x ∈ rest, x < 256 := fun x hx => h x (by simp [hx])
    have hne2 : encChar ((b0 * 65536 + b1 * 256 + b2) / 64 % 64) ≠ b64Pad :=
      encChar_ne_pad _ (Nat.mod_lt _ (by norm_num))
    have hne3 : encChar ((b0 * 65536 + b1 * 256 + b2) % 64) ≠ b64Pad :=
      encChar_ne_pad _ (Nat.mod_lt _ (by norm_num))
    simp only [b64Encode, b64DecodeQuanta,
      decChar_encChar _ (Nat.mod_lt _ (by norm_num))]
    rw [if_neg hne2, if_neg hne3, b64DecodeQuanta_b64Encode rest hrest]
    refine congrArg Except.ok ?_
    refine List.cons_eq_cons.mpr ⟨by omega, List.cons_eq_cons.mpr ⟨by omega,
      List.cons_eq_cons.mpr ⟨by omega, rfl⟩⟩⟩

/-- C6.  The codec round-trips: for every byte sequence, including the
empty one and lengths that are not multiples of three, decoding the
padding-stripped encoding succeeds and returns the original bytes. -/
theorem u2f_C6 (b : List Nat) (h : ∀ x ∈ b, x < 256) :
    decodeBase64 (encodeBase64 b) = .ok b := by
  unfold decodeBase64 encodeBase64
  rw [padLoop_trimRightPad_b64Encode b, stripNewlines_b64Encode b]
  exact b64DecodeQuanta_b64Encode b h

/-- Witness for C6 at a concrete 4-byte sequence. -/
theorem u2f_C6_witness : decodeBase64 (encodeBase64 [0, 255, 7, 9]) = .ok [0, 255, 7, 9] :=
  u2f_C6 [0, 255, 7, 9] (by decide)

end U2F
